import Mathlib

/-!
Verification development for the `gait` repository's Python SDK and
deterministic pack-producer kit.

The development shallowly embeds the relevant Python source files:

* `scripts/pack_producer_kit.py` — canonical JSON serialization
  (`canonical_json`), the deterministic ZIP writer
  (`deterministic_zip_bytes`), and the pack builders
  (`build_source_runpack_stub`, `build_pack`).
* `sdk/python/gait/client.py` — the gate-eval result handling
  (`evaluate_gate`, `_parse_json_stdout`).
* `sdk/python/gait/models.py` — the intent/decision data model with
  `to_dict` / `from_dict` serialization.
* `sdk/python/gait/adapter.py` — `ToolAdapter.execute` verdict dispatch.
* `sdk/python/gait/decorators.py` — the `gate_tool` wrapper dispatch.
* `sdk/python/gait/session.py` — `RunSession` finalization state machine
  and the ASCII canonical serializer `_canonical_json_bytes`.

Modelling boundaries (external libraries are parameters of the model):

* JSON values are modelled by the inductive type `Json`; numbers are
  modelled as integers (the payloads handled by this code are integers
  and strings).  A Lean `String` stands for its UTF-8 byte encoding,
  which is injective, so byte equality is string equality.
* `hashlib.sha256(...).hexdigest()` is an external primitive; it enters
  the model as an explicit function argument `sha256_hex : Bytes → String`.
* `zipfile` serialization of an archive (fixed deflate method and level)
  is deterministic in the entry sequence and per-entry metadata, so an
  archive is modelled by the constructor `Bytes.zipArchive` applied to
  the written entry sequence, each entry carrying the metadata fields the
  source sets explicitly.
* `json.loads` on subprocess stdout is a parameter
  `loads : String → Option Json` (`none` models a `JSONDecodeError`).
* `datetime` values and their ISO-8601 codec are parameters `DT`,
  `dtIso : DT → String`, `dtParse : String → DT`; Python compares aware
  datetimes by instant, which the abstract type reflects.
-/

/-- Code-point comparison of character lists, exactly the lexicographic
order Python uses for `str` comparison (and the order of Lean `String`s). -/
def charsLe : List Char → List Char → Bool
  | [], _ => true
  | _ :: _, [] => false
  | a :: as, b :: bs =>
    if a < b then true
    else if b < a then false
    else charsLe as bs

/-- Python string `<=`, used by `sorted(...)` and `sort_keys=True`. -/
def strLe (a b : String) : Bool := charsLe a.data b.data

/-- JSON-like values: the data `json.dumps` / `json.loads` handle in the
embedded code.  Objects are insertion-ordered key/value lists, mirroring
Python dicts. -/
inductive Json where
  | null : Json
  | bool (b : Bool) : Json
  | num (n : Int) : Json
  | str (s : String) : Json
  | arr (elems : List Json) : Json
  | obj (entries : List (String × Json)) : Json

mutual

/-- Boolean structural equality on `Json` (needed because `deriving
DecidableEq` does not support this nested inductive type). -/
def Json.beq : Json → Json → Bool
  | .null, .null => true
  | .bool a, .bool b => a == b
  | .num a, .num b => a == b
  | .str a, .str b => a == b
  | .arr a, .arr b => Json.beqList a b
  | .obj a, .obj b => Json.beqObj a b
  | _, _ => false

/-- Pointwise `Json.beq` on lists. -/
def Json.beqList : List Json → List Json → Bool
  | [], [] => true
  | a :: as, b :: bs => Json.beq a b && Json.beqList as bs
  | _, _ => false

/-- Pointwise `Json.beq` on key/value lists. -/
def Json.beqObj : List (String × Json) → List (String × Json) → Bool
  | [], [] => true
  | (k, v) :: as, (k2, v2) :: bs => k == k2 && Json.beq v v2 && Json.beqObj as bs
  | _, _ => false

end

/-- Python truthiness (`bool(x)`) of a JSON value: `False`, `0`, `""`,
`[]`, `{}` and `None` are falsy, everything else truthy. -/
def truthy : Json → Bool
  | .null => false
  | .bool b => b
  | .num n => n != 0
  | .str s => s != ""
  | .arr xs => !xs.isEmpty
  | .obj kvs => !kvs.isEmpty

/-- Key order used by `json.dumps(sort_keys=True)` and by `sorted(entries,
key=...)`: compare the string component. -/
def keyLe {β : Type} (a b : String × β) : Prop := strLe a.1 b.1 = true

instance {β : Type} : DecidableRel (@keyLe β) := fun _ _ =>
  inferInstanceAs (Decidable (_ = true))

/-- Stable sort by string key.  Python's `sorted` is specified to be a
stable sort; `List.insertionSort` with a total preorder is the stable
sort, so the two agree extensionally. -/
def sortByKey {β : Type} (l : List (String × β)) : List (String × β) :=
  List.insertionSort keyLe l

/-- Lowercase hexadecimal digit character, as Python's `\uXXXX` escapes use. -/
def hexDigit (n : Nat) : Char :=
  if n < 10 then Char.ofNat (48 + n) else Char.ofNat (87 + n)

/-- A `\uXXXX` escape with four lowercase hex digits. -/
def hexEscape (n : Nat) : String :=
  "\\u" ++ String.singleton (hexDigit (n / 4096 % 16)) ++ String.singleton (hexDigit (n / 256 % 16))
    ++ String.singleton (hexDigit (n / 16 % 16)) ++ String.singleton (hexDigit (n % 16))

/-- One character, escaped the way `json.dumps(..., ensure_ascii=False)`
escapes it: only `"`, `\` and control characters are escaped; all other
characters (including non-ASCII) are emitted literally as UTF-8. -/
def escapeChar (c : Char) : String :=
  if c = '"' then "\\\""
  else if c = '\\' then "\\\\"
  else if c = '\n' then "\\n"
  else if c = '\r' then "\\r"
  else if c = '\t' then "\\t"
  else if c = '\x08' then "\\b"
  else if c = '\x0c' then "\\f"
  else if c.toNat < 32 then "\\u00" ++ String.singleton (hexDigit (c.toNat / 16)) ++ String.singleton (hexDigit (c.toNat % 16))
  else String.singleton c

/-- One character, escaped the way `json.dumps` escapes it with the
default `ensure_ascii=True`: like `escapeChar`, but additionally every
character above U+007E is escaped as `\uXXXX` (with a surrogate pair for
characters beyond the BMP). -/
def escapeCharAscii (c : Char) : String :=
  if c = '"' then "\\\""
  else if c = '\\' then "\\\\"
  else if c = '\n' then "\\n"
  else if c = '\r' then "\\r"
  else if c = '\t' then "\\t"
  else if c = '\x08' then "\\b"
  else if c = '\x0c' then "\\f"
  else if c.toNat < 32 then hexEscape c.toNat
  else if c.toNat < 127 then String.singleton c
  else if c.toNat < 65536 then hexEscape c.toNat
  else hexEscape (55296 + (c.toNat - 65536) / 1024) ++ hexEscape (56320 + (c.toNat - 65536) % 1024)

/-- The concatenated escape expansion of a string's characters. -/
def escData (esc : Char → String) (s : String) : List Char :=
  s.data.flatMap (fun c => (esc c).data)

/-- A JSON string literal: quote, escaped characters, quote. -/
def encodeStringWith (esc : Char → String) (s : String) : String :=
  "\"" ++ String.mk (escData esc s) ++ "\""

mutual

/-- Render a JSON value with the compact separators `(",", ":")` used by
both serializers in the source; object keys are emitted in list order
(sorting is the separate pass `sortKeysDeep`).  The character escaper is
a parameter so the `ensure_ascii` variants share this definition. -/
def render (esc : Char → String) : Json → String
  | .null => "null"
  | .bool true => "true"
  | .bool false => "false"
  | .num n => toString n
  | .str s => encodeStringWith esc s
  | .arr xs => "[" ++ renderList esc xs ++ "]"
  | .obj kvs => "\x7b" ++ renderObj esc kvs ++ "\x7d"

/-- Render array elements, comma-separated. -/
def renderList (esc : Char → String) : List Json → String
  | [] => ""
  | [x] => render esc x
  | x :: y :: xs => render esc x ++ "," ++ renderList esc (y :: xs)

/-- Render object entries, comma-separated, `key:value`. -/
def renderObj (esc : Char → String) : List (String × Json) → String
  | [] => ""
  | [(k, v)] => encodeStringWith esc k ++ ":" ++ render esc v
  | (k, v) :: e :: kvs => encodeStringWith esc k ++ ":" ++ render esc v ++ "," ++ renderObj esc (e :: kvs)

end

mutual

/-- Recursively sort every object's entries by key — the `sort_keys=True`
behaviour of `json.dumps`, applied as a normalization pass before
rendering. -/
def sortKeysDeep : Json → Json
  | .null => .null
  | .bool b => .bool b
  | .num n => .num n
  | .str s => .str s
  | .arr xs => .arr (sortKeysDeepList xs)
  | .obj kvs => .obj (sortByKey (sortKeysDeepObj kvs))

/-- `sortKeysDeep` on each element of an array (order preserved). -/
def sortKeysDeepList : List Json → List Json
  | [] => []
  | x :: xs => sortKeysDeep x :: sortKeysDeepList xs

/-- `sortKeysDeep` on each value of an object (keys untouched here). -/
def sortKeysDeepObj : List (String × Json) → List (String × Json)
  | [] => []
  | (k, v) :: kvs => (k, sortKeysDeep v) :: sortKeysDeepObj kvs

end

/-- Model of `canonical_json` from `scripts/pack_producer_kit.py`:
`json.dumps(data, sort_keys=True, separators=(",", ":"),
ensure_ascii=False).encode("utf-8")`.  The resulting Lean string stands
for its UTF-8 bytes. -/
def canonical_json (data : Json) : String :=
  render escapeChar (sortKeysDeep data)

/-- Model of `_canonical_json_bytes` from `sdk/python/gait/session.py`:
`json.dumps(value, sort_keys=True, separators=(",", ":"))` — the same
canonical form but with the default `ensure_ascii=True` escaping.
(`_json_compatible` coerces Python values into the JSON domain; the
model's inputs are already `Json` values, on which it is the identity.) -/
def _canonical_json_bytes (value : Json) : String :=
  render escapeCharAscii (sortKeysDeep value)

/-- Per-entry ZIP metadata fields which `deterministic_zip_bytes` forces
to fixed values (`ZipInfo.date_time`, `external_attr`, `create_system`,
and the archive-level compression method/level applied to each entry). -/
structure ZipMeta where
  date_time : Nat × Nat × Nat × Nat × Nat × Nat
  external_attr : Nat
  create_system : Nat
  compress_type : Nat
  compress_level : Nat
deriving DecidableEq, Repr

/-- Byte strings produced by the pack producer kit: either the UTF-8
encoding of a string (all JSON payloads and the empty `b""`), or the
`zipfile` serialization of a sequence of archive entries.  The ZIP
container format with the fixed compression settings used here is an
injective, deterministic encoding of this entry sequence, so archive
bytes are modelled by the entry sequence itself. -/
inductive Bytes where
  | utf8 (s : String) : Bytes
  | zipArchive (entries : List (String × ZipMeta × Bytes)) : Bytes

/-- `EPOCH_DT = (1980, 1, 1, 0, 0, 0)` from `pack_producer_kit.py`. -/
def EPOCH_DT : Nat × Nat × Nat × Nat × Nat × Nat := (1980, 1, 1, 0, 0, 0)

/-- The fixed metadata every entry receives: `info.date_time = EPOCH_DT`,
`info.external_attr = (0o644 & 0xFFFF) << 16`, `info.create_system = 3`,
with `ZIP_DEFLATED` (method 8) at `compresslevel=9`. -/
def fixedZipMeta : ZipMeta :=
  { date_time := EPOCH_DT
    external_attr := (0o644 &&& 0xFFFF) <<< 16
    create_system := 3
    compress_type := 8
    compress_level := 9 }

/-- Model of `deterministic_zip_bytes(entries)`: sort the entries by path
(`sorted(entries, key=lambda item: item[0])`, a stable sort) and write
each with the fixed metadata.  No duplicate-path check is performed —
every entry of the input list is written. -/
def deterministic_zip_bytes (entries : List (String × Bytes)) : Bytes :=
  .zipArchive ((sortByKey entries).map fun e => (e.1, fixedZipMeta, e.2))

/-- Python dict assignment `d[k] = v` on an insertion-ordered key/value
list: replace the value at the first occurrence of `k`, or append. -/
def setKey : List (String × Json) → String → Json → List (String × Json)
  | [], k, v => [(k, v)]
  | (k1, v1) :: rest, k, v =>
    if k1 = k then (k1, v) :: rest else (k1, v1) :: setKey rest k v

/-- Python `d.pop(k, None)`: remove the first occurrence of `k`. -/
def popKey : List (String × Json) → String → List (String × Json)
  | [], _ => []
  | (k1, v1) :: rest, k => if k1 = k then rest else (k1, v1) :: popKey rest k

/-- Python `d.get(k, default)` on a key/value list. -/
def jgetD : List (String × Json) → String → Json → Json
  | [], _, dflt => dflt
  | (k1, v1) :: rest, k, dflt => if k1 = k then v1 else jgetD rest k dflt

/-- Python `d.get(k)` (defaulting to `None` represented as `none`). -/
def jget : List (String × Json) → String → Option Json
  | [], _ => none
  | (k1, v1) :: rest, k => if k1 = k then some v1 else jget rest k

section PackProducerKit

variable (sha256_hex : Bytes → String)

/-- Model of `build_source_runpack_stub(run_id)` from
`pack_producer_kit.py`: the inner run-pack manifest with its
`manifest_digest` computed by the blank-then-digest pattern, archived
deterministically together with the stub payload files.
`sha256_hex` is the external `hashlib.sha256(...).hexdigest()`. -/
def build_source_runpack_stub (run_id : String) : Bytes :=
  let manifest : List (String × Json) :=
    [ ("schema_id", .str "gait.runpack.manifest")
    , ("schema_version", .str "1.0.0")
    , ("created_at", .str "2026-01-01T00:00:00Z")
    , ("producer_version", .str "producer-kit-1.0.0")
    , ("run_id", .str run_id)
    , ("capture_mode", .str "reference")
    , ("files", .arr
        [ .obj [("path", .str "run.json"),
              ("sha256", .str (sha256_hex (.utf8 (canonical_json (.obj [("run_id", .str run_id)])))))]
        , .obj [("path", .str "intents.jsonl"), ("sha256", .str (sha256_hex (.utf8 "")))]
        , .obj [("path", .str "results.jsonl"), ("sha256", .str (sha256_hex (.utf8 "")))]
        , .obj [("path", .str "refs.json"),
              ("sha256", .str (sha256_hex (.utf8 (canonical_json (.obj [("receipts", .arr [])])))))]
        ])
    , ("manifest_digest", .str "")
    ]
  let manifest_for_digest := setKey manifest "manifest_digest" (.str "")
  let manifest' := setKey manifest "manifest_digest"
    (.str (sha256_hex (.utf8 (canonical_json (.obj manifest_for_digest)))))
  let run_json := canonical_json (.obj [("run_id", .str run_id)])
  let refs_json := canonical_json (.obj [("receipts", .arr [])])
  let manifest_json := canonical_json (.obj manifest')
  deterministic_zip_bytes
    [ ("manifest.json", .utf8 manifest_json)
    , ("run.json", .utf8 run_json)
    , ("intents.jsonl", .utf8 "")
    , ("results.jsonl", .utf8 "")
    , ("refs.json", .utf8 refs_json)
    ]

/-- The `run_payload` dict built inside `build_pack`. -/
def build_pack_run_payload (run_id created_at : String) : List (String × Json) :=
  [ ("schema_id", .str "gait.pack.run")
  , ("schema_version", .str "1.0.0")
  , ("created_at", .str created_at)
  , ("run_id", .str run_id)
  , ("capture_mode", .str "reference")
  , ("manifest_digest", .str (sha256_hex (build_source_runpack_stub sha256_hex run_id)))
  , ("intents_count", .num 0)
  , ("results_count", .num 0)
  , ("refs_count", .num 0)
  ]

/-- The `contents` list built inside `build_pack`. -/
def build_pack_contents (run_id created_at : String) : List Json :=
  [ .obj [ ("path", .str "run_payload.json")
       , ("sha256", .str (sha256_hex (.utf8 (canonical_json (.obj (build_pack_run_payload sha256_hex run_id created_at))))))
       , ("type", .str "json") ]
  , .obj [ ("path", .str "source/runpack.zip")
       , ("sha256", .str (sha256_hex (build_source_runpack_stub sha256_hex run_id)))
       , ("type", .str "zip") ]
  ]

/-- The `manifest` dict built inside `build_pack`, before `pack_id` is
filled in (the source initializes `"pack_id": ""`). -/
def build_pack_manifest_blank (run_id producer_version created_at : String) : List (String × Json) :=
  [ ("schema_id", .str "gait.pack.manifest")
  , ("schema_version", .str "1.0.0")
  , ("created_at", .str created_at)
  , ("producer_version", .str producer_version)
  , ("pack_id", .str "")
  , ("pack_type", .str "run")
  , ("source_ref", .str run_id)
  , ("contents", .arr (build_pack_contents sha256_hex run_id created_at))
  ]

/-- `manifest_for_id`: a deep copy of the manifest with `pack_id` blanked
and any `signatures` key popped, exactly as in `build_pack`. -/
def build_pack_manifest_for_id (run_id producer_version created_at : String) : List (String × Json) :=
  popKey (setKey (build_pack_manifest_blank sha256_hex run_id producer_version created_at)
    "pack_id" (.str "")) "signatures"

/-- The final manifest dict of `build_pack`, with
`manifest["pack_id"] = sha256_hex(canonical_json(manifest_for_id))`. -/
def build_pack_manifest (run_id producer_version created_at : String) : List (String × Json) :=
  setKey (build_pack_manifest_blank sha256_hex run_id producer_version created_at) "pack_id"
    (.str (sha256_hex (.utf8 (canonical_json (.obj (build_pack_manifest_for_id sha256_hex run_id producer_version created_at))))))

/-- Model of `build_pack(run_id, producer_version, created_at)`: the
deterministic archive of the manifest, the run payload, and the embedded
source run pack.  The manifest construction of source lines 90–109 is
split into the named helpers above so that theorems can address the
manifest value itself; `build_pack` composes them exactly as the source
does. -/
def build_pack (run_id producer_version created_at : String) : Bytes :=
  let run_payload_bytes := canonical_json (.obj (build_pack_run_payload sha256_hex run_id created_at))
  let manifest_bytes := canonical_json (.obj (build_pack_manifest sha256_hex run_id producer_version created_at))
  deterministic_zip_bytes
    [ ("pack_manifest.json", .utf8 manifest_bytes)
    , ("run_payload.json", .utf8 run_payload_bytes)
    , ("source/runpack.zip", build_source_runpack_stub sha256_hex run_id)
    ]

end PackProducerKit

/-- Python `str(x)` of a JSON value.  For a string it is the string
itself — the only case the embedded code reaches in the properties
below.  For other values Python renders a repr-style form; the model
uses the JSON rendering as that form (no theorem depends on it). -/
def pyStr (v : Json) : String :=
  match v with
  | .str s => s
  | v => render escapeChar v

/-- Python `int(x)` of a JSON value where the source applies it
(`int(payload.get("step_count", 0))`): integers map to themselves,
booleans to 0/1.  Other inputs raise in Python and are mapped to 0 here;
no theorem depends on them. -/
def pyInt (v : Json) : Int :=
  match v with
  | .num n => n
  | .bool true => 1
  | _ => 0

/-- A raw `payload.get(k)` result coerced to the `str | None` typed
fields of the dataclasses: JSON strings pass through, absence is `none`.
(Python would store a non-string value unchanged; the dataclass fields
under study only ever receive strings or `None`.) -/
def asOptStr : Option Json → Option String
  | some (.str s) => some s
  | _ => none

/-- Python iteration over a JSON value where the source iterates
`payload.get(k, [])`: the elements of an array.  The payloads under
study are arrays; non-iterable values raise in Python and yield `[]`
here (no theorem depends on them). -/
def asList : Json → List Json
  | .arr xs => xs
  | _ => []

/-- `isinstance(v, dict)` filter used by `step_verdicts`. -/
def asObj : Json → Option (List (String × Json))
  | .obj kvs => some kvs
  | _ => none

/-- Model of the `GateEvalResult` dataclass of `sdk/python/gait/models.py`. -/
structure GateEvalResult where
  ok : Bool
  exit_code : Int
  verdict : Option String := none
  reason_codes : List String := []
  violations : List String := []
  approval_ref : Option String := none
  trace_id : Option String := none
  trace_path : Option String := none
  policy_digest : Option String := none
  intent_digest : Option String := none
  script : Bool := false
  step_count : Int := 0
  script_hash : Option String := none
  composite_risk_class : Option String := none
  pre_approved : Bool := false
  pattern_id : Option String := none
  registry_reason : Option String := none
  step_verdicts : List (List (String × Json)) := []
  warnings : List String := []
  error : Option String := none

/-- Model of `GateEvalResult.from_dict(payload, exit_code)`. -/
def GateEvalResult.from_dict (payload : List (String × Json)) (exit_code : Int) : GateEvalResult :=
  { ok := truthy (jgetD payload "ok" (.bool false))
    exit_code := exit_code
    verdict := asOptStr (jget payload "verdict")
    reason_codes := (asList (jgetD payload "reason_codes" (.arr []))).map pyStr
    violations := (asList (jgetD payload "violations" (.arr []))).map pyStr
    approval_ref := asOptStr (jget payload "approval_ref")
    trace_id := asOptStr (jget payload "trace_id")
    trace_path := asOptStr (jget payload "trace_path")
    policy_digest := asOptStr (jget payload "policy_digest")
    intent_digest := asOptStr (jget payload "intent_digest")
    script := truthy (jgetD payload "script" (.bool false))
    step_count := pyInt (jgetD payload "step_count" (.num 0))
    script_hash := asOptStr (jget payload "script_hash")
    composite_risk_class := asOptStr (jget payload "composite_risk_class")
    pre_approved := truthy (jgetD payload "pre_approved" (.bool false))
    pattern_id := asOptStr (jget payload "pattern_id")
    registry_reason := asOptStr (jget payload "registry_reason")
    step_verdicts := (asList (jgetD payload "step_verdicts" (.arr []))).filterMap asObj
    warnings := (asList (jgetD payload "warnings" (.arr []))).map pyStr
    error := asOptStr (jget payload "error") }

/-- The `_CommandResult` dataclass of `sdk/python/gait/client.py`:
captured argv, exit code, stdout and stderr of one completed subprocess. -/
structure CommandResult where
  command : List String
  exit_code : Int
  stdout : String
  stderr : String

/-- The `GaitCommandError` exception of `client.py`, carrying the
command, exit code, stdout and stderr for diagnostics. -/
structure GaitCommandError where
  message : String
  command : List String
  exit_code : Int
  stdout : String
  stderr : String

/-- Python `str.strip()`: drop leading and trailing whitespace. -/
def pyStrip (s : String) : String :=
  String.mk (((s.data.dropWhile Char.isWhitespace).reverse.dropWhile Char.isWhitespace).reverse)

/-- Model of `_parse_json_stdout(stdout)` from `client.py`: strip the
output; empty, unparseable (`loads` returns `none`), or non-object JSON
yields `None`; otherwise the parsed object.  `loads` is the external
`json.loads`. -/
def _parse_json_stdout (loads : String → Option Json) (stdout : String) : Option (List (String × Json)) :=
  let content := pyStrip stdout
  if content = "" then none
  else
    match loads content with
    | none => none
    | some (.obj kvs) => some kvs
    | some _ => none

/-- Model of the result handling of `evaluate_gate` (client.py lines
141–162), given the completed subprocess result: parse stdout (raising
`GaitCommandError` on parse failure); return a `GateEvalResult` exactly
when the exit code is 0 or 4; raise `GaitCommandError` with the
payload's `error` message (or the fixed fallback) for every other exit
code.  Building the intent file, the argv and the subprocess run itself
are external effects preceding this logic. -/
def evaluate_gate (loads : String → Option Json) (result : CommandResult) :
    Except GaitCommandError GateEvalResult :=
  match _parse_json_stdout loads result.stdout with
  | none =>
    .error { message := "failed to parse JSON from gait gate eval"
             command := result.command
             exit_code := result.exit_code
             stdout := result.stdout
             stderr := result.stderr }
  | some payload =>
    if result.exit_code = 0 ∨ result.exit_code = 4 then
      .ok (GateEvalResult.from_dict payload result.exit_code)
    else
      .error { message :=
                 (if truthy (jgetD payload "error" .null) then pyStr (jgetD payload "error" .null)
                  else "gait gate eval failed")
               command := result.command
               exit_code := result.exit_code
               stdout := result.stdout
               stderr := result.stderr }

/-- The `GateEnforcementError` exception of `sdk/python/gait/adapter.py`:
carries the full decision; the message is built in `__init__`. -/
structure GateEnforcementError where
  decision : GateEvalResult
  message : String

/-- Construct `GateEnforcementError(decision)`: `verdict = decision.verdict
or "unknown"` (Python `or`: a falsy verdict — `None` or `""` — becomes
`"unknown"`), `reasons = ",".join(...) if decision.reason_codes else "none"`. -/
def GateEnforcementError.ofDecision (decision : GateEvalResult) : GateEnforcementError :=
  let verdict :=
    match decision.verdict with
    | some s => if s = "" then "unknown" else s
    | none => "unknown"
  let reasons :=
    if decision.reason_codes.isEmpty then "none"
    else String.intercalate "," decision.reason_codes
  { decision := decision
    message := "execution blocked by gate verdict=" ++ verdict ++ " reasons=" ++ reasons }

/-- The `AdapterOutcome` dataclass of `adapter.py`. -/
structure AdapterOutcome (ρ : Type) where
  decision : GateEvalResult
  executed : Bool
  result : Option ρ := none

/-- Model of `ToolAdapter.execute` (adapter.py lines 79–95) from the
point where `gate_intent` has produced the parsed `decision` (the
subprocess round-trip is external): not-ok decisions raise; verdict
`"allow"` runs the executor; verdict `"dry_run"` returns an unexecuted
outcome; every other verdict raises.  `executor` models the wrapped
side-effecting callable: it is invoked exactly where the source calls
`executor(intent)`. -/
def ToolAdapter.execute {ρ : Type} (decision : GateEvalResult) (executor : Unit → ρ) :
    Except GateEnforcementError (AdapterOutcome ρ) :=
  if decision.ok = false then .error (GateEnforcementError.ofDecision decision)
  else if decision.verdict = some "allow" then
    .ok { decision := decision, executed := true, result := some (executor ()) }
  else if decision.verdict = some "dry_run" then
    .ok { decision := decision, executed := false, result := none }
  else .error (GateEnforcementError.ofDecision decision)

/-- Model of the wrapped function produced by `gate_tool`
(decorators.py lines 43–70), from the point where the decision has been
parsed: run `adapter.execute`; if the outcome was not executed, raise
`GateEnforcementError(outcome.decision)`; otherwise return
`outcome.result`. -/
def gate_tool_call {ρ : Type} (decision : GateEvalResult) (function : Unit → ρ) :
    Except GateEnforcementError (Option ρ) :=
  match ToolAdapter.execute decision (fun _ => function ()) with
  | .error e => .error e
  | .ok outcome =>
    if outcome.executed = false then .error (GateEnforcementError.ofDecision outcome.decision)
    else .ok outcome.result

mutual

/-- Decidable equality on `Json` (written by hand: `deriving` does not
support this nested inductive type). -/
def Json.decEq : (a b : Json) → Decidable (a = b)
  | .null, .null => .isTrue rfl
  | .bool a, .bool b =>
    if h : a = b then .isTrue (h ▸ rfl) else .isFalse (fun he => h (Json.bool.inj he))
  | .num a, .num b =>
    if h : a = b then .isTrue (h ▸ rfl) else .isFalse (fun he => h (Json.num.inj he))
  | .str a, .str b =>
    if h : a = b then .isTrue (h ▸ rfl) else .isFalse (fun he => h (Json.str.inj he))
  | .arr a, .arr b =>
    match Json.decEqList a b with
    | .isTrue h => .isTrue (h ▸ rfl)
    | .isFalse h => .isFalse (fun he => h (Json.arr.inj he))
  | .obj a, .obj b =>
    match Json.decEqObj a b with
    | .isTrue h => .isTrue (h ▸ rfl)
    | .isFalse h => .isFalse (fun he => h (Json.obj.inj he))
  | .null, .bool _ => .isFalse (fun he => Json.noConfusion he)
  | .null, .num _ => .isFalse (fun he => Json.noConfusion he)
  | .null, .str _ => .isFalse (fun he => Json.noConfusion he)
  | .null, .arr _ => .isFalse (fun he => Json.noConfusion he)
  | .null, .obj _ => .isFalse (fun he => Json.noConfusion he)
  | .bool _, .null => .isFalse (fun he => Json.noConfusion he)
  | .bool _, .num _ => .isFalse (fun he => Json.noConfusion he)
  | .bool _, .str _ => .isFalse (fun he => Json.noConfusion he)
  | .bool _, .arr _ => .isFalse (fun he => Json.noConfusion he)
  | .bool _, .obj _ => .isFalse (fun he => Json.noConfusion he)
  | .num _, .null => .isFalse (fun he => Json.noConfusion he)
  | .num _, .bool _ => .isFalse (fun he => Json.noConfusion he)
  | .num _, .str _ => .isFalse (fun he => Json.noConfusion he)
  | .num _, .arr _ => .isFalse (fun he => Json.noConfusion he)
  | .num _, .obj _ => .isFalse (fun he => Json.noConfusion he)
  | .str _, .null => .isFalse (fun he => Json.noConfusion he)
  | .str _, .bool _ => .isFalse (fun he => Json.noConfusion he)
  | .str _, .num _ => .isFalse (fun he => Json.noConfusion he)
  | .str _, .arr _ => .isFalse (fun he => Json.noConfusion he)
  | .str _, .obj _ => .isFalse (fun he => Json.noConfusion he)
  | .arr _, .null => .isFalse (fun he => Json.noConfusion he)
  | .arr _, .bool _ => .isFalse (fun he => Json.noConfusion he)
  | .arr _, .num _ => .isFalse (fun he => Json.noConfusion he)
  | .arr _, .str _ => .isFalse (fun he => Json.noConfusion he)
  | .arr _, .obj _ => .isFalse (fun he => Json.noConfusion he)
  | .obj _, .null => .isFalse (fun he => Json.noConfusion he)
  | .obj _, .bool _ => .isFalse (fun he => Json.noConfusion he)
  | .obj _, .num _ => .isFalse (fun he => Json.noConfusion he)
  | .obj _, .str _ => .isFalse (fun he => Json.noConfusion he)
  | .obj _, .arr _ => .isFalse (fun he => Json.noConfusion he)

/-- Decidable equality on lists of `Json`. -/
def Json.decEqList : (a b : List Json) → Decidable (a = b)
  | [], [] => .isTrue rfl
  | [], _ :: _ => .isFalse (fun he => List.noConfusion he)
  | _ :: _, [] => .isFalse (fun he => List.noConfusion he)
  | a :: as, b :: bs =>
    match Json.decEq a b, Json.decEqList as bs with
    | .isTrue h1, .isTrue h2 => .isTrue (h1 ▸ h2 ▸ rfl)
    | .isFalse h1, _ => .isFalse (fun he => h1 (List.cons.inj he).1)
    | _, .isFalse h2 => .isFalse (fun he => h2 (List.cons.inj he).2)

/-- Decidable equality on key/value lists of `Json`. -/
def Json.decEqObj : (a b : List (String × Json)) → Decidable (a = b)
  | [], [] => .isTrue rfl
  | [], _ :: _ => .isFalse (fun he => List.noConfusion he)
  | _ :: _, [] => .isFalse (fun he => List.noConfusion he)
  | (k, v) :: as, (k2, v2) :: bs =>
    match instDecidableEqString k k2, Json.decEq v v2, Json.decEqObj as bs with
    | .isTrue h0, .isTrue h1, .isTrue h2 => .isTrue (h0 ▸ h1 ▸ h2 ▸ rfl)
    | .isFalse h0, _, _ => .isFalse (fun he => h0 (congrArg Prod.fst (List.cons.inj he).1))
    | _, .isFalse h1, _ => .isFalse (fun he => h1 (congrArg Prod.snd (List.cons.inj he).1))
    | _, _, .isFalse h2 => .isFalse (fun he => h2 (List.cons.inj he).2)

end

instance : DecidableEq Json := Json.decEq

/-- Model of the `IntentTarget` dataclass of `models.py`. -/
structure IntentTarget where
  kind : String
  value : String
  operation : Option String := none
  sensitivity : Option String := none
deriving DecidableEq, Repr

/-- Model of the `IntentArgProvenance` dataclass of `models.py`. -/
structure IntentArgProvenance where
  arg_path : String
  source : String
  source_ref : Option String := none
  integrity_digest : Option String := none
deriving DecidableEq, Repr

/-- Model of the `IntentContext` dataclass of `models.py`.
`auth_context` is an arbitrary JSON object (a Python dict). -/
structure IntentContext where
  identity : String
  workspace : String
  risk_class : String
  session_id : Option String := none
  request_id : Option String := none
  auth_context : Option (List (String × Json)) := none
  credential_scopes : List String := []
  environment_fingerprint : Option String := none
  context_set_digest : Option String := none
  context_evidence_mode : Option String := none
  context_refs : List String := []
deriving DecidableEq

/-- Model of the `DelegationLink` dataclass of `models.py`. -/
structure DelegationLink where
  delegator_identity : String
  delegate_identity : String
  scope_class : Option String := none
  token_ref : Option String := none
deriving DecidableEq, Repr

/-- Model of the `IntentDelegation` dataclass of `models.py`. -/
structure IntentDelegation where
  requester_identity : String
  scope_class : Option String := none
  token_refs : List String := []
  chain : List DelegationLink := []
deriving DecidableEq, Repr

/-- Model of the `IntentScriptStep` dataclass of `models.py`. -/
structure IntentScriptStep where
  tool_name : String
  args : List (String × Json)
  targets : List IntentTarget := []
  arg_provenance : List IntentArgProvenance := []
deriving DecidableEq

/-- Model of the `IntentScript` dataclass of `models.py`. -/
structure IntentScript where
  steps : List IntentScriptStep
deriving DecidableEq

/-- Model of the `IntentRequest` dataclass of `models.py`.  `DT` is the
abstract type of (timezone-aware) `datetime` values. -/
structure IntentRequest (DT : Type) where
  tool_name : String
  args : List (String × Json)
  context : IntentContext
  targets : List IntentTarget := []
  arg_provenance : List IntentArgProvenance := []
  delegation : Option IntentDelegation := none
  script : Option IntentScript := none
  created_at : DT
  producer_version : String := "0.0.0-dev"
  schema_id : String := "gait.gate.intent_request"
  schema_version : String := "1.0.0"
  args_digest : Option String := none
  intent_digest : Option String := none
  script_hash : Option String := none

instance {DT : Type} [DecidableEq DT] : DecidableEq (IntentRequest DT) := fun a b => by
  cases a
  cases b
  rw [IntentRequest.mk.injEq]
  infer_instance

/-- Python `if value:` insertion of an optional string field into a
serialized dict: skipped when the field is `None` or `""` (truthiness). -/
def optStrEntry (k : String) : Option String → List (String × Json)
  | some s => if s = "" then [] else [(k, .str s)]
  | none => []

/-- Python `if value:` insertion of an optional dict field: skipped when
the field is `None` or the empty dict. -/
def optObjEntry (k : String) : Option (List (String × Json)) → List (String × Json)
  | some kvs => if kvs.isEmpty then [] else [(k, .obj kvs)]
  | none => []

/-- Python `if value:` insertion of a string-list field: skipped when the
list is empty. -/
def optStrListEntry (k : String) (l : List String) : List (String × Json) :=
  if l.isEmpty then [] else [(k, .arr (l.map Json.str))]

/-- Model of `IntentTarget.to_dict`. -/
def IntentTarget.to_dict (t : IntentTarget) : List (String × Json) :=
  [("kind", .str t.kind), ("value", .str t.value)]
    ++ optStrEntry "operation" t.operation
    ++ optStrEntry "sensitivity" t.sensitivity

/-- Model of `IntentArgProvenance.to_dict`. -/
def IntentArgProvenance.to_dict (p : IntentArgProvenance) : List (String × Json) :=
  [("arg_path", .str p.arg_path), ("source", .str p.source)]
    ++ optStrEntry "source_ref" p.source_ref
    ++ optStrEntry "integrity_digest" p.integrity_digest

/-- Model of `IntentContext.to_dict`. -/
def IntentContext.to_dict (c : IntentContext) : List (String × Json) :=
  [("identity", .str c.identity), ("workspace", .str c.workspace),
      ("risk_class", .str c.risk_class)]
    ++ optStrEntry "session_id" c.session_id
    ++ optStrEntry "request_id" c.request_id
    ++ optObjEntry "auth_context" c.auth_context
    ++ optStrListEntry "credential_scopes" c.credential_scopes
    ++ optStrEntry "environment_fingerprint" c.environment_fingerprint
    ++ optStrEntry "context_set_digest" c.context_set_digest
    ++ optStrEntry "context_evidence_mode" c.context_evidence_mode
    ++ optStrListEntry "context_refs" c.context_refs

/-- Model of `DelegationLink.to_dict`. -/
def DelegationLink.to_dict (l : DelegationLink) : List (String × Json) :=
  [("delegator_identity", .str l.delegator_identity),
      ("delegate_identity", .str l.delegate_identity)]
    ++ optStrEntry "scope_class" l.scope_class
    ++ optStrEntry "token_ref" l.token_ref

/-- Model of `IntentDelegation.to_dict`. -/
def IntentDelegation.to_dict (d : IntentDelegation) : List (String × Json) :=
  [("requester_identity", .str d.requester_identity)]
    ++ optStrEntry "scope_class" d.scope_class
    ++ optStrListEntry "token_refs" d.token_refs
    ++ (if d.chain.isEmpty then []
        else [("chain", .arr (d.chain.map fun l => Json.obj l.to_dict))])

/-- Model of `IntentScriptStep.to_dict`. -/
def IntentScriptStep.to_dict (s : IntentScriptStep) : List (String × Json) :=
  [("tool_name", .str s.tool_name), ("args", .obj s.args)]
    ++ (if s.targets.isEmpty then []
        else [("targets", .arr (s.targets.map fun t => Json.obj t.to_dict))])
    ++ (if s.arg_provenance.isEmpty then []
        else [("arg_provenance", .arr (s.arg_provenance.map fun p => Json.obj p.to_dict))])

/-- Model of `IntentScript.to_dict`. -/
def IntentScript.to_dict (s : IntentScript) : List (String × Json) :=
  [("steps", .arr (s.steps.map fun st => Json.obj st.to_dict))]

/-- Model of `IntentRequest.to_dict`; `dtIso` is `_isoformat` (the
external `datetime.astimezone(UTC).isoformat()` with `Z` suffix). -/
def IntentRequest.to_dict {DT : Type} (dtIso : DT → String) (x : IntentRequest DT) :
    List (String × Json) :=
  [("schema_id", .str x.schema_id),
      ("schema_version", .str x.schema_version),
      ("created_at", .str (dtIso x.created_at)),
      ("producer_version", .str x.producer_version),
      ("tool_name", .str x.tool_name),
      ("args", .obj x.args),
      ("targets", .arr (x.targets.map fun t => Json.obj t.to_dict)),
      ("context", .obj x.context.to_dict)]
    ++ (if x.arg_provenance.isEmpty then []
        else [("arg_provenance", .arr (x.arg_provenance.map fun p => Json.obj p.to_dict))])
    ++ (match x.delegation with
        | some d => [("delegation", .obj d.to_dict)]
        | none => [])
    ++ (match x.script with
        | some s => [("script", .obj s.to_dict)]
        | none => [])
    ++ optStrEntry "args_digest" x.args_digest
    ++ optStrEntry "intent_digest" x.intent_digest
    ++ optStrEntry "script_hash" x.script_hash

/-- Python exceptions that `IntentRequest.from_dict` can raise. -/
inductive PyErr where
  | keyError (k : String) : PyErr
  | typeError : PyErr
deriving DecidableEq, Repr

/-- Python `payload[k]`: `KeyError` when the key is absent. -/
def jgetE (payload : List (String × Json)) (k : String) : Except PyErr Json :=
  match jget payload k with
  | some v => .ok v
  | none => .error (.keyError k)

/-- Python `dict(v)` where the source passes a JSON value: an object's
entries, `TypeError` otherwise. -/
def asDict : Json → Except PyErr (List (String × Json))
  | .obj kvs => .ok kvs
  | _ => .error .typeError

/-- The `IntentTarget(...)` construction inside `from_dict`'s target
comprehension: `kind`/`value` are required and `str`-coerced, the
optional fields are raw `.get` results. -/
def IntentTarget.parse (v : Json) : Except PyErr IntentTarget := do
  let kvs ← asDict v
  let kind ← jgetE kvs "kind"
  let value ← jgetE kvs "value"
  .ok { kind := pyStr kind
        value := pyStr value
        operation := asOptStr (jget kvs "operation")
        sensitivity := asOptStr (jget kvs "sensitivity") }

/-- The `IntentArgProvenance(...)` construction inside `from_dict`. -/
def IntentArgProvenance.parse (v : Json) : Except PyErr IntentArgProvenance := do
  let kvs ← asDict v
  let arg_path ← jgetE kvs "arg_path"
  let source ← jgetE kvs "source"
  .ok { arg_path := pyStr arg_path
        source := pyStr source
        source_ref := asOptStr (jget kvs "source_ref")
        integrity_digest := asOptStr (jget kvs "integrity_digest") }

/-- The `IntentContext(...)` construction inside `from_dict`. -/
def IntentContext.parse (v : Json) : Except PyErr IntentContext := do
  let kvs ← asDict v
  let identity ← jgetE kvs "identity"
  let workspace ← jgetE kvs "workspace"
  let risk_class ← jgetE kvs "risk_class"
  .ok { identity := pyStr identity
        workspace := pyStr workspace
        risk_class := pyStr risk_class
        session_id := asOptStr (jget kvs "session_id")
        request_id := asOptStr (jget kvs "request_id")
        auth_context := (jget kvs "auth_context").bind asObj
        credential_scopes := (asList (jgetD kvs "credential_scopes" (.arr []))).map pyStr
        environment_fingerprint := asOptStr (jget kvs "environment_fingerprint")
        context_set_digest := asOptStr (jget kvs "context_set_digest")
        context_evidence_mode := asOptStr (jget kvs "context_evidence_mode")
        context_refs := (asList (jgetD kvs "context_refs" (.arr []))).map pyStr }

/-- The `DelegationLink(...)` construction inside `from_dict`. -/
def DelegationLink.parse (v : Json) : Except PyErr DelegationLink := do
  let kvs ← asDict v
  let delegator ← jgetE kvs "delegator_identity"
  let delegate ← jgetE kvs "delegate_identity"
  .ok { delegator_identity := pyStr delegator
        delegate_identity := pyStr delegate
        scope_class := asOptStr (jget kvs "scope_class")
        token_ref := asOptStr (jget kvs "token_ref") }

/-- The `IntentDelegation(...)` construction inside `from_dict` (already
guarded by `isinstance(payload.get("delegation"), dict)`). -/
def IntentDelegation.parse (kvs : List (String × Json)) : Except PyErr IntentDelegation := do
  let requester ← jgetE kvs "requester_identity"
  let chain ← (asList (jgetD kvs "chain" (.arr []))).mapM DelegationLink.parse
  .ok { requester_identity := pyStr requester
        scope_class := asOptStr (jget kvs "scope_class")
        token_refs := (asList (jgetD kvs "token_refs" (.arr []))).map pyStr
        chain := chain }

/-- The `IntentScriptStep(...)` construction inside `from_dict`. -/
def IntentScriptStep.parse (v : Json) : Except PyErr IntentScriptStep := do
  let kvs ← asDict v
  let tool ← jgetE kvs "tool_name"
  let args ← asDict (jgetD kvs "args" (.obj []))
  let targets ← (asList (jgetD kvs "targets" (.arr []))).mapM IntentTarget.parse
  let prov ← (asList (jgetD kvs "arg_provenance" (.arr []))).mapM IntentArgProvenance.parse
  .ok { tool_name := pyStr tool
        args := args
        targets := targets
        arg_provenance := prov }

/-- The `IntentScript(...)` construction inside `from_dict` (already
guarded by `isinstance(payload.get("script"), dict)`). -/
def IntentScript.parse (kvs : List (String × Json)) : Except PyErr IntentScript := do
  let steps ← (asList (jgetD kvs "steps" (.arr []))).mapM IntentScriptStep.parse
  .ok { steps := steps }

/-- Model of `IntentRequest.from_dict(payload)`; `dtParse` is
`_parse_datetime` (the external ISO-8601 parser normalizing to UTC). -/
def IntentRequest.from_dict {DT : Type} (dtParse : String → DT)
    (payload : List (String × Json)) : Except PyErr (IntentRequest DT) := do
  let created_raw ← jgetE payload "created_at"
  let tool_raw ← jgetE payload "tool_name"
  let args ← asDict (jgetD payload "args" (.obj []))
  let targets ← (asList (jgetD payload "targets" (.arr []))).mapM IntentTarget.parse
  let prov ← (asList (jgetD payload "arg_provenance" (.arr []))).mapM IntentArgProvenance.parse
  let ctx_raw ← jgetE payload "context"
  let ctx ← IntentContext.parse ctx_raw
  let delegation ←
    match jget payload "delegation" with
    | some (.obj kvs) => Except.map some (IntentDelegation.parse kvs)
    | _ => .ok none
  let script ←
    match jget payload "script" with
    | some (.obj kvs) => Except.map some (IntentScript.parse kvs)
    | _ => .ok none
  .ok { schema_id := pyStr (jgetD payload "schema_id" (.str "gait.gate.intent_request"))
        schema_version := pyStr (jgetD payload "schema_version" (.str "1.0.0"))
        created_at := dtParse (pyStr created_raw)
        producer_version := pyStr (jgetD payload "producer_version" (.str "0.0.0-dev"))
        tool_name := pyStr tool_raw
        args := args
        args_digest := asOptStr (jget payload "args_digest")
        intent_digest := asOptStr (jget payload "intent_digest")
        script_hash := asOptStr (jget payload "script_hash")
        targets := targets
        arg_provenance := prov
        context := ctx
        delegation := delegation
        script := script }

/-- Python `x or default` for an optional string: a falsy value (`None`
or `""`) yields the default. -/
def pyOrStr (x : Option String) (dflt : String) : String :=
  match x with
  | some s => if s = "" then dflt else s
  | none => dflt

/-- Truthiness of an optional string (`None` and `""` are falsy). -/
def truthyOptStr (x : Option String) : Bool :=
  match x with
  | some s => s != ""
  | none => false

/-- A `str | None` value placed into a dict (Python `None` becomes JSON
`null` under serialization). -/
def optJson : Option String → Json
  | some s => .str s
  | none => .null

/-- Python `f"intent_{n:04d}"`-style zero padding to four digits. -/
def pad4 (n : Nat) : String :=
  if n < 10 then "000" ++ toString n
  else if n < 100 then "00" ++ toString n
  else if n < 1000 then "0" ++ toString n
  else toString n

/-- The `RunRecordCapture` dataclass of `models.py`. -/
structure RunRecordCapture where
  run_id : String
  bundle_path : String
  manifest_digest : String
  ticket_footer : String
deriving DecidableEq, Repr

/-- The `RunAttempt` dataclass of `session.py`. -/
structure RunAttempt where
  intent_id : String
  tool_name : String
  verdict : String
  executed : Bool
  status : String
deriving DecidableEq, Repr

/-- The mutable state of a `RunSession` object (`session.py`), together
with the configuration fields its methods read.  The subprocess
configuration (`gait_bin`, `out_dir`, `cwd`, `context_envelope`) only
parameterizes the external `record_runpack` call and is absorbed by the
`recordRunpack` function argument of `RunSession.finalize`. -/
structure RunSessionState where
  run_id : String
  capture_mode : String
  include_raw_payload : Bool
  producer_version : String
  closed : Bool
  capture : Option RunRecordCapture
  record_input : Option Json
  attempt_count : Nat
  started_at : String
  timeline : List Json
  intents : List Json
  results : List Json
  refs : List Json
  attempts : List RunAttempt
  context_set_digest : Option String
  context_evidence_mode : Option String
  context_refs : List String
deriving DecidableEq

/-- Model of `RunSession.__init__`: validate `run_id` and `capture_mode`
(raising `ValueError`, carried as a message) and build the initial state;
`started_at` is the external `_utc_now()` already ISO-formatted. -/
def RunSession.init (run_id capture_mode : String) (include_raw_payload : Bool)
    (producer_version : String) (context_evidence_mode : Option String)
    (started_at : String) : Except String RunSessionState :=
  if pyStrip run_id = "" then .error "run_id is required"
  else if ¬ (capture_mode = "reference" ∨ capture_mode = "raw") then
    .error "capture_mode must be 'reference' or 'raw'"
  else
    .ok { run_id := pyStrip run_id
          capture_mode := capture_mode
          include_raw_payload := include_raw_payload
          producer_version := producer_version
          closed := false
          capture := none
          record_input := none
          attempt_count := 0
          started_at := started_at
          timeline := [.obj [("event", .str "run_started"), ("ts", .str started_at)]]
          intents := []
          results := []
          refs := []
          attempts := []
          context_set_digest := none
          context_evidence_mode := context_evidence_mode
          context_refs := [] }

/-- Model of `_result_status(verdict=..., executed=..., error=...)`. -/
def _result_status (verdict : String) (executed : Bool) (error : Option String) : String :=
  match error with
  | some _ => "error"
  | none =>
    if executed then "ok"
    else if verdict = "dry_run" then "dry_run"
    else if verdict = "block" ∨ verdict = "require_approval" then verdict
    else if verdict ≠ "" then verdict
    else "blocked"

/-- `_sha256_json(value)`: the external SHA-256 of the ASCII canonical
serialization. -/
def _sha256_json (sha256_hex : Bytes → String) (value : Json) : String :=
  sha256_hex (.utf8 (_canonical_json_bytes value))

/-- Model of `RunSession.record_attempt` (session.py lines 132–238).
The session's datetimes are carried as their ISO strings (`DT := String`,
identity codec), `created_at` is the external `_utc_now()` of this call,
`error` is `str(error)` of the passed exception when present.  Raises
`RuntimeError` (carried as a message) once the session is finalized. -/
def RunSession.record_attempt (sha256_hex : Bytes → String) (s : RunSessionState)
    (intent : IntentRequest String) (decision : GateEvalResult) (executed : Bool)
    (result : Option Json) (error : Option String) (created_at : String) :
    Except String RunSessionState :=
  if s.closed then .error "run session already finalized"
  else
    let attempt_count := s.attempt_count + 1
    let intent_id := "intent_" ++ pad4 attempt_count
    let args_digest := pyOrStr intent.args_digest (_sha256_json sha256_hex (.obj intent.args))
    let intent_payload := Json.obj (IntentRequest.to_dict id intent)
    let intent_digest := pyOrStr intent.intent_digest (_sha256_json sha256_hex intent_payload)
    let context_set_digest :=
      if truthyOptStr intent.context.context_set_digest ∧ ¬ truthyOptStr s.context_set_digest
      then intent.context.context_set_digest else s.context_set_digest
    let context_evidence_mode :=
      if truthyOptStr intent.context.context_evidence_mode ∧ ¬ truthyOptStr s.context_evidence_mode
      then intent.context.context_evidence_mode else s.context_evidence_mode
    let context_refs := intent.context.context_refs.foldl
      (fun acc r =>
        let value := pyStrip r
        if value ≠ "" ∧ value ∉ acc then acc ++ [value] else acc)
      s.context_refs
    let intent_record : Json := .obj
      ([ ("schema_id", .str "gait.runpack.intent")
       , ("schema_version", .str "1.0.0")
       , ("created_at", .str created_at)
       , ("producer_version", .str s.producer_version)
       , ("run_id", .str s.run_id)
       , ("intent_id", .str intent_id)
       , ("tool_name", .str intent.tool_name)
       , ("args_digest", .str args_digest) ]
       ++ (if s.capture_mode = "raw" ∧ s.include_raw_payload
           then [("args", .obj intent.args)] else []))
    let verdict := pyOrStr decision.verdict "unknown"
    let status := _result_status verdict executed error
    let result_payload : Json := .obj
      ([ ("executed", .bool executed)
       , ("verdict", .str verdict)
       , ("reason_codes", .arr (decision.reason_codes.map Json.str))
       , ("trace_id", optJson decision.trace_id)
       , ("trace_path", optJson decision.trace_path)
       , ("policy_digest", optJson decision.policy_digest)
       , ("intent_digest", .str (pyOrStr decision.intent_digest intent_digest)) ]
       ++ (match error with
           | some msg => [("error", .str msg)]
           | none => [])
       ++ (match result with
           | some r => if executed then [("result", r)] else []
           | none => []))
    let result_digest := _sha256_json sha256_hex result_payload
    let result_record : Json := .obj
      ([ ("schema_id", .str "gait.runpack.result")
       , ("schema_version", .str "1.0.0")
       , ("created_at", .str created_at)
       , ("producer_version", .str s.producer_version)
       , ("run_id", .str s.run_id)
       , ("intent_id", .str intent_id)
       , ("status", .str status)
       , ("result_digest", .str result_digest) ]
       ++ (if s.capture_mode = "raw" ∧ s.include_raw_payload
           then [("result", result_payload)] else []))
    let trace_ref := pyOrStr decision.trace_id intent_id
    let source_locator := pyOrStr decision.trace_path ("trace://" ++ trace_ref)
    let ref_record : Json := .obj
      [ ("ref_id", .str ("trace_" ++ intent_id))
      , ("source_type", .str "gait.trace")
      , ("source_locator", .str source_locator)
      , ("query_digest", .str (_sha256_json sha256_hex
          (.obj [("tool_name", .str intent.tool_name), ("args_digest", .str args_digest)])))
      , ("content_digest", .str result_digest)
      , ("retrieved_at", .str created_at)
      , ("redaction_mode", .str s.capture_mode)
      , ("retrieval_params", .obj
          [ ("verdict", .str verdict)
          , ("reason_codes", .arr (decision.reason_codes.map Json.str)) ]) ]
    .ok { s with
          attempt_count := attempt_count
          context_set_digest := context_set_digest
          context_evidence_mode := context_evidence_mode
          context_refs := context_refs
          intents := s.intents ++ [intent_record]
          results := s.results ++ [result_record]
          refs := s.refs ++ [ref_record]
          timeline := s.timeline
            ++ [ .obj [("event", .str "intent_captured"), ("ts", .str created_at),
                   ("ref", .str intent_id)]
               , .obj [("event", .str "result_captured"), ("ts", .str created_at),
                   ("ref", .str intent_id)] ]
          attempts := s.attempts ++
            [{ intent_id := intent_id
               tool_name := intent.tool_name
               verdict := verdict
               executed := executed
               status := status }] }

/-- The `env` dict of the run record (`platform`/`sys` probes, external). -/
structure RunEnv where
  os : String
  arch : String
  runtime : String

/-- The timeline after `finalize` appends the `run_finished` event. -/
def RunSession.finalize_timeline (finished_at : String) (s : RunSessionState) : List Json :=
  s.timeline ++ [.obj [("event", .str "run_finished"), ("ts", .str finished_at)]]

/-- The `record_input` dict assembled by `finalize` (session.py lines
247–278), including the conditional context fields of the `refs` block. -/
def RunSession.finalize_record_input (env : RunEnv) (finished_at : String)
    (s : RunSessionState) : Json :=
  let refs_obj : List (String × Json) :=
    [ ("schema_id", .str "gait.runpack.refs")
    , ("schema_version", .str "1.0.0")
    , ("created_at", .str finished_at)
    , ("producer_version", .str s.producer_version)
    , ("run_id", .str s.run_id)
    , ("receipts", .arr s.refs) ]
    ++ (if truthyOptStr s.context_set_digest
        then [("context_set_digest", .str (pyOrStr s.context_set_digest ""))] else [])
    ++ (if truthyOptStr s.context_evidence_mode
        then [("context_evidence_mode", .str (pyOrStr s.context_evidence_mode ""))] else [])
    ++ (if s.context_refs.isEmpty then []
        else [("context_ref_count", .num s.context_refs.length)])
  .obj
    [ ("run", .obj
        [ ("schema_id", .str "gait.runpack.run")
        , ("schema_version", .str "1.0.0")
        , ("created_at", .str s.started_at)
        , ("producer_version", .str s.producer_version)
        , ("run_id", .str s.run_id)
        , ("env", .obj [("os", .str env.os), ("arch", .str env.arch),
            ("runtime", .str env.runtime)])
        , ("timeline", .arr (RunSession.finalize_timeline finished_at s)) ])
    , ("intents", .arr s.intents)
    , ("results", .arr s.results)
    , ("refs", .obj refs_obj)
    , ("capture_mode", .str s.capture_mode) ]

/-- The session state after the mutations `finalize` performs before the
external call (`run_finished` appended, `_record_input` stored). -/
def RunSession.finalize_pending_state (env : RunEnv) (finished_at : String)
    (s : RunSessionState) : RunSessionState :=
  { s with timeline := RunSession.finalize_timeline finished_at s
           record_input := some (RunSession.finalize_record_input env finished_at s) }

/-- The session state after a successful `finalize`: capture stored,
session closed. -/
def RunSession.finalize_success_state (env : RunEnv) (finished_at : String)
    (s : RunSessionState) (c : RunRecordCapture) : RunSessionState :=
  { RunSession.finalize_pending_state env finished_at s with capture := some c, closed := true }

/-- Model of `RunSession.finalize` (session.py lines 240–290): if a
capture already exists, return it unchanged without any external call;
otherwise append `run_finished`, assemble `record_input`, invoke the
external `gait run record` (the `recordRunpack` parameter, which absorbs
`gait_bin`, `cwd`, `out_dir`, `capture_mode` and the context-envelope
flags), and on success store the capture and close the session.  On a
raised `GaitCommandError` the Python object keeps the already-performed
mutations (timeline append and `_record_input`), which the returned
state reflects.  The construction of source lines 244–288 is split into
the named helpers above so that theorems can address the intermediate
values; `finalize` composes them exactly as the source does. -/
def RunSession.finalize (recordRunpack : Json → Except GaitCommandError RunRecordCapture)
    (env : RunEnv) (finished_at : String) (s : RunSessionState) :
    Except GaitCommandError RunRecordCapture × RunSessionState :=
  match s.capture with
  | some c => (.ok c, s)
  | none =>
    match recordRunpack (RunSession.finalize_record_input env finished_at s) with
    | .error e => (.error e, RunSession.finalize_pending_state env finished_at s)
    | .ok c => (.ok c, RunSession.finalize_success_state env finished_at s c)

/-- Model of `RunSession.__exit__` (session.py lines 111–118): it calls
`finalize` and then resets the ambient context variable (not part of the
state model); the session state transition is exactly that of
`finalize`. -/
def RunSession.exitSession (recordRunpack : Json → Except GaitCommandError RunRecordCapture)
    (env : RunEnv) (finished_at : String) (s : RunSessionState) :
    Except GaitCommandError RunRecordCapture × RunSessionState :=
  RunSession.finalize recordRunpack env finished_at s

/-- An optional string field survives the truthiness-based serialization
(`if value:`) exactly when it is not the empty string: `some ""` is
omitted by `to_dict` and comes back as `none`. -/
def okOptStr (o : Option String) : Bool := o != some ""

/-- Field conditions under which an `IntentTarget` survives
`to_dict`/`from_dict` unchanged. -/
def IntentTarget.roundtrippable (t : IntentTarget) : Bool :=
  okOptStr t.operation && okOptStr t.sensitivity

/-- Field conditions under which an `IntentArgProvenance` survives the
round trip unchanged. -/
def IntentArgProvenance.roundtrippable (p : IntentArgProvenance) : Bool :=
  okOptStr p.source_ref && okOptStr p.integrity_digest

/-- Field conditions under which an `IntentContext` survives the round
trip unchanged (optional strings not `""`, `auth_context` not the empty
dict). -/
def IntentContext.roundtrippable (c : IntentContext) : Bool :=
  okOptStr c.session_id && okOptStr c.request_id && (c.auth_context != some [])
    && okOptStr c.environment_fingerprint && okOptStr c.context_set_digest
    && okOptStr c.context_evidence_mode

/-- Field conditions under which a `DelegationLink` survives the round
trip unchanged. -/
def DelegationLink.roundtrippable (l : DelegationLink) : Bool :=
  okOptStr l.scope_class && okOptStr l.token_ref

/-- Field conditions under which an `IntentDelegation` survives the
round trip unchanged. -/
def IntentDelegation.roundtrippable (d : IntentDelegation) : Bool :=
  okOptStr d.scope_class && d.chain.all DelegationLink.roundtrippable

/-- Field conditions under which an `IntentScriptStep` survives the
round trip unchanged. -/
def IntentScriptStep.roundtrippable (s : IntentScriptStep) : Bool :=
  s.targets.all IntentTarget.roundtrippable
    && s.arg_provenance.all IntentArgProvenance.roundtrippable

/-- Field conditions under which an `IntentScript` survives the round
trip unchanged. -/
def IntentScript.roundtrippable (s : IntentScript) : Bool :=
  s.steps.all IntentScriptStep.roundtrippable

/-- Field conditions under which an `IntentRequest` survives the round
trip unchanged: no optional string field anywhere is `some ""` and
`auth_context` is not the empty dict (Python truthiness collapses those
to absent). -/
def IntentRequest.roundtrippable {DT : Type} (x : IntentRequest DT) : Bool :=
  x.targets.all IntentTarget.roundtrippable
    && x.arg_provenance.all IntentArgProvenance.roundtrippable
    && x.context.roundtrippable
    && (match x.delegation with
        | some d => d.roundtrippable
        | none => true)
    && (match x.script with
        | some s => s.roundtrippable
        | none => true)
    && okOptStr x.args_digest && okOptStr x.intent_digest && okOptStr x.script_hash

/-- One `contents[]` entry of a pack manifest: an object with
`path`, `sha256` and `type` string fields. -/
structure PackEntry where
  path : String
  sha256 : String
  type : String
deriving DecidableEq, Repr

/-- The entry dict as built in `build_pack`'s `contents` list. -/
def PackEntry.toJson (e : PackEntry) : Json :=
  .obj [("path", .str e.path), ("sha256", .str e.sha256), ("type", .str e.type)]

/-- The data of a `manifest_for_id`: the pack manifest fields of
`build_pack` with `pack_id` blanked to `""` (and no `signatures` key),
over an arbitrary `contents` list. -/
structure ManifestForId where
  created_at : String
  producer_version : String
  source_ref : String
  contents : List PackEntry
deriving DecidableEq, Repr

/-- The manifest-for-id dict, in `build_pack`'s key insertion order. -/
def ManifestForId.toJson (m : ManifestForId) : Json :=
  .obj
    [ ("schema_id", .str "gait.pack.manifest")
    , ("schema_version", .str "1.0.0")
    , ("created_at", .str m.created_at)
    , ("producer_version", .str m.producer_version)
    , ("pack_id", .str "")
    , ("pack_type", .str "run")
    , ("source_ref", .str m.source_ref)
    , ("contents", .arr (m.contents.map PackEntry.toJson)) ]

/-- `pack_id` as computed by `build_pack`: the external SHA-256 of the
canonical JSON of the manifest with `pack_id` blanked. -/
def packIdOf (sha256_hex : Bytes → String) (m : ManifestForId) : String :=
  sha256_hex (.utf8 (canonical_json m.toJson))

/-- Consume an expected literal prefix from the input. -/
def chompLit : List Char → List Char → Option (List Char)
  | [], input => some input
  | _ :: _, [] => none
  | c :: cs, d :: ds => if c = d then chompLit cs ds else none

/-- Value of a lowercase hexadecimal digit character. -/
def hexVal (c : Char) : Nat :=
  if c.toNat ≥ 97 then c.toNat - 87 else c.toNat - 48

/-- Scan a JSON string literal body (the opening quote already consumed)
up to its closing quote, undoing the escapes `canonical_json` produces;
`acc` holds the decoded characters in reverse. -/
def scanJString : List Char → List Char → Option (String × List Char)
  | [], _ => none
  | c :: rest, acc =>
    if c = '"' then some (String.mk acc.reverse, rest)
    else if c = '\\' then
      match rest with
      | [] => none
      | d :: rest2 =>
        if d = 'u' then
          match rest2 with
          | h1 :: h2 :: h3 :: h4 :: rest3 =>
            scanJString rest3
              (Char.ofNat (((hexVal h1 * 16 + hexVal h2) * 16 + hexVal h3) * 16 + hexVal h4) :: acc)
          | _ => none
        else if d = '"' then scanJString rest2 ('"' :: acc)
        else if d = '\\' then scanJString rest2 ('\\' :: acc)
        else if d = 'n' then scanJString rest2 ('\n' :: acc)
        else if d = 'r' then scanJString rest2 ('\r' :: acc)
        else if d = 't' then scanJString rest2 ('\t' :: acc)
        else if d = 'b' then scanJString rest2 ('\x08' :: acc)
        else if d = 'f' then scanJString rest2 ('\x0c' :: acc)
        else none
    else scanJString rest (c :: acc)

/-- The characters of one rendered `contents[]` entry, segmented the way
the reader consumes them. -/
def entryChars (e : PackEntry) : List Char :=
  ("\x7b\"path\":\"").data ++ (escData escapeChar e.path
    ++ ('"' :: ((",\"sha256\":\"").data ++ (escData escapeChar e.sha256
    ++ ('"' :: ((",\"type\":\"").data ++ (escData escapeChar e.type
    ++ ('"' :: ('\x7d' :: [])))))))))

/-- The rendered `,entry` repetitions after a first entry. -/
def contentsTailChars : List PackEntry → List Char
  | [] => []
  | e :: es => ',' :: (entryChars e ++ contentsTailChars es)

/-- The rendered `contents` array body after its opening `[`, including
the closing `]`. -/
def contentsBodyChars : List PackEntry → List Char
  | [] => ']' :: []
  | e :: es => entryChars e ++ (contentsTailChars es ++ (']' :: []))

/-- Read one canonical `contents[]` entry object. -/
def parsePackEntry (input : List Char) : Option (PackEntry × List Char) :=
  (chompLit ("\x7b\"path\":\"").data input).bind fun r1 =>
  (scanJString r1 []).bind fun path =>
  (chompLit (",\"sha256\":\"").data path.2).bind fun r3 =>
  (scanJString r3 []).bind fun sha =>
  (chompLit (",\"type\":\"").data sha.2).bind fun r5 =>
  (scanJString r5 []).bind fun ty =>
  (chompLit ('\x7d' :: []) ty.2).bind fun r7 =>
  some ({ path := path.1, sha256 := sha.1, type := ty.1 }, r7)

/-- Read `,entry` repetitions up to the closing `]` (fuelled). -/
def parsePackEntriesTail : Nat → List PackEntry → List Char → Option (List PackEntry × List Char)
  | _, _, [] => none
  | fuel, acc, c :: rest =>
    if c = ']' then some (acc.reverse, rest)
    else if c = ',' then
      match fuel with
      | 0 => none
      | fuel2 + 1 =>
        (parsePackEntry rest).bind fun pr => parsePackEntriesTail fuel2 (pr.1 :: acc) pr.2
    else none

/-- Read a canonical `contents` array body (the opening `[` already
consumed). -/
def parsePackContents (fuel : Nat) (input : List Char) : Option (List PackEntry × List Char) :=
  match chompLit (']' :: []) input with
  | some rest => some ([], rest)
  | none => (parsePackEntry input).bind fun pr => parsePackEntriesTail fuel (pr.1 :: []) pr.2

/-- Read the canonical JSON of a manifest-for-id back into its data: a
reader for the exact canonical layout (keys sorted, compact separators,
fixed schema fields). -/
def parseManifestForId (s : String) : Option ManifestForId :=
  (chompLit ("\x7b\"contents\":[").data s.data).bind fun r1 =>
  (parsePackContents r1.length r1).bind fun cs =>
  (chompLit (",\"created_at\":\"").data cs.2).bind fun r3 =>
  (scanJString r3 []).bind fun ca =>
  (chompLit (",\"pack_id\":\"\",\"pack_type\":\"run\",\"producer_version\":\"").data ca.2).bind fun r5 =>
  (scanJString r5 []).bind fun pv =>
  (chompLit (",\"schema_id\":\"gait.pack.manifest\",\"schema_version\":\"1.0.0\",\"source_ref\":\"").data pv.2).bind fun r7 =>
  (scanJString r7 []).bind fun sr =>
  (chompLit ('\x7d' :: []) sr.2).bind fun r9 =>
  if r9.isEmpty then
    some { created_at := ca.1, producer_version := pv.1,
           source_ref := sr.1, contents := cs.1 }
  else none

/-- A stand-in digest function for concrete evaluations: the identity on
UTF-8 payloads (injective there by construction). -/
def identityDigest : Bytes → String
  | .utf8 s => s
  | .zipArchive _ => ""

theorem charsLe_total : ∀ as bs : List Char, charsLe as bs = true ∨ charsLe bs as = true
  | [], _ => Or.inl rfl
  | _ :: _, [] => Or.inr rfl
  | a :: as, b :: bs => by
    simp only [charsLe]
    rcases lt_trichotomy a b with h | h | h
    · left; simp [h]
    · subst h
      have h1 : ¬ a < a := lt_irrefl a
      rcases charsLe_total as bs with ih | ih
      · left; simp [h1, ih]
      · right; simp [h1, ih]
    · have h1 : ¬ a < b := lt_asymm h
      right; simp [h, h1]

theorem charsLe_trans : ∀ as bs cs : List Char,
    charsLe as bs = true → charsLe bs cs = true → charsLe as cs = true
  | [], _, _, _, _ => rfl
  | _ :: _, b :: bs, [], _, h2 => by simp [charsLe] at h2
  | _ :: _, [], _, h1, _ => by simp [charsLe] at h1
  | a :: as, b :: bs, c :: cs, h1, h2 => by
    simp only [charsLe] at h1 h2 ⊢
    rcases lt_trichotomy a b with hab | hab | hab <;>
      rcases lt_trichotomy b c with hbc | hbc | hbc
    · have hac : a < c := lt_trans hab hbc
      simp [hac]
    · subst hbc
      simp [hab]
    · have hx : ¬ b < c := lt_asymm hbc
      simp [hx, hbc] at h2
    · subst hab
      simp [hbc]
    · subst hab; subst hbc
      have h1x : ¬ a < a := lt_irrefl a
      simp only [h1x, if_false] at h1 h2 ⊢
      exact charsLe_trans as bs cs h1 h2
    · subst hab
      have hx : ¬ a < c := lt_asymm hbc
      simp [hx, hbc] at h2
    · have hx : ¬ a < b := lt_asymm hab
      simp [hx, hab] at h1
    · subst hbc
      have hx : ¬ a < b := lt_asymm hab
      simp [hx, hab] at h1
    · have hx : ¬ a < b := lt_asymm hab
      simp [hx, hab] at h1

theorem charsLe_antisymm : ∀ as bs : List Char,
    charsLe as bs = true → charsLe bs as = true → as = bs
  | [], [], _, _ => rfl
  | [], _ :: _, _, h2 => by simp [charsLe] at h2
  | _ :: _, [], h1, _ => by simp [charsLe] at h1
  | a :: as, b :: bs, h1, h2 => by
    simp only [charsLe] at h1 h2
    rcases lt_trichotomy a b with hab | hab | hab
    · have hba : ¬ b < a := lt_asymm hab
      simp [hba, hab] at h2
    · subst hab
      have hx : ¬ a < a := lt_irrefl a
      simp only [hx, if_false] at h1 h2
      rw [charsLe_antisymm as bs h1 h2]
    · have hx : ¬ a < b := lt_asymm hab
      simp [hx, hab] at h1

theorem strLe_antisymm {a b : String} (h1 : strLe a b = true) (h2 : strLe b a = true) : a = b := by
  have h := charsLe_antisymm a.data b.data h1 h2
  cases a
  cases b
  exact congrArg String.mk h

theorem keyLe_total {β : Type} (a b : String × β) : keyLe a b ∨ keyLe b a :=
  charsLe_total a.1.data b.1.data

theorem keyLe_trans {β : Type} {a b c : String × β} (h1 : keyLe a b) (h2 : keyLe b c) :
    keyLe a c :=
  charsLe_trans a.1.data b.1.data c.1.data h1 h2

theorem sortByKey_sorted {β : Type} (l : List (String × β)) : (sortByKey l).Sorted keyLe := by
  haveI : IsTotal (String × β) keyLe := ⟨keyLe_total⟩
  haveI : IsTrans (String × β) keyLe := ⟨fun _ _ _ => keyLe_trans⟩
  exact List.sorted_insertionSort keyLe l

theorem sortByKey_perm {β : Type} (l : List (String × β)) : List.Perm (sortByKey l) l :=
  List.perm_insertionSort keyLe l

/-- Two lists of keyed entries that are sorted by key, are permutations
of each other, and have no duplicate keys, are equal: sortedness plus a
duplicate-free key set pins down the order uniquely. -/
theorem sorted_keyed_perm_eq {β : Type} {l1 l2 : List (String × β)}
    (hp : List.Perm l1 l2) (hs1 : l1.Sorted keyLe) (hs2 : l2.Sorted keyLe)
    (hnd : (l1.map Prod.fst).Nodup) : l1 = l2 := by
  induction l1 generalizing l2 with
  | nil => exact hp.nil_eq
  | cons a t1 ih =>
    cases l2 with
    | nil => exact absurd hp.symm (by simp)
    | cons b t2 =>
      have hab : a = b := by
        have hb_mem : b ∈ a :: t1 := hp.symm.subset (List.mem_cons_self b t2)
        rcases List.mem_cons.mp hb_mem with h | h
        · exact h.symm
        · have ha_mem : a ∈ b :: t2 := hp.subset (List.mem_cons_self a t1)
          rcases List.mem_cons.mp ha_mem with h2 | h2
          · exact h2
          · exfalso
            have hle1 : keyLe a b := List.rel_of_sorted_cons hs1 b h
            have hle2 : keyLe b a := List.rel_of_sorted_cons hs2 a h2
            have hkey : a.1 = b.1 := strLe_antisymm hle1 hle2
            have hmem : a.1 ∈ t1.map Prod.fst := by
              rw [hkey]
              exact List.mem_map_of_mem Prod.fst h
            exact (List.nodup_cons.mp hnd).1 hmem
      subst hab
      have hp2 : List.Perm t1 t2 := hp.cons_inv
      have := ih hp2 hs1.of_cons hs2.of_cons (List.nodup_cons.mp hnd).2
      rw [this]

/-- `sortByKey` is insensitive to the input order when keys are
duplicate-free. -/
theorem sortByKey_eq_of_perm {β : Type} {l1 l2 : List (String × β)}
    (hp : List.Perm l1 l2) (hnd : (l1.map Prod.fst).Nodup) : sortByKey l1 = sortByKey l2 := by
  apply sorted_keyed_perm_eq
  · exact (sortByKey_perm l1).trans (hp.trans (sortByKey_perm l2).symm)
  · exact sortByKey_sorted l1
  · exact sortByKey_sorted l2
  · exact ((sortByKey_perm l1).map Prod.fst).nodup_iff.mpr hnd

theorem sortKeysDeepObj_eq_map :
    ∀ l : List (String × Json), sortKeysDeepObj l = l.map (fun kv => (kv.1, sortKeysDeep kv.2))
  | [] => rfl
  | (k, v) :: kvs => by
    rw [sortKeysDeepObj, sortKeysDeepObj_eq_map kvs]
    rfl

theorem sortKeysDeepObj_keys (l : List (String × Json)) :
    (sortKeysDeepObj l).map Prod.fst = l.map Prod.fst := by
  rw [sortKeysDeepObj_eq_map, List.map_map]
  rfl

/-- Claim C4: canonicalization is deterministic and key-order
insensitive: `canonical_json` applied twice to a value yields identical
bytes, and two structurally equal objects built with different
key-insertion orders (permutations of the same duplicate-free key/value
set) canonicalize to identical bytes; the same holds for the session's
`_canonical_json_bytes`.  The final conjunct exhibits the concrete form:
keys sorted, compact `,`/`:` separators, non-ASCII text kept as literal
UTF-8. -/
theorem canonical_json_deterministic_key_order_insensitive :
    (∀ v : Json, canonical_json v = canonical_json v)
    ∧ (∀ kvs1 kvs2 : List (String × Json), List.Perm kvs1 kvs2 →
        (kvs1.map Prod.fst).Nodup →
        canonical_json (.obj kvs1) = canonical_json (.obj kvs2)
        ∧ _canonical_json_bytes (.obj kvs1) = _canonical_json_bytes (.obj kvs2))
    ∧ canonical_json (.obj [("b", .str "héllo"), ("a", .num 1)])
        = "\x7b\"a\":1,\"b\":\"héllo\"\x7d" := by
  refine ⟨fun _ => rfl, fun kvs1 kvs2 hp hnd => ?_, by decide⟩
  have hmap : List.Perm (sortKeysDeepObj kvs1) (sortKeysDeepObj kvs2) := by
    rw [sortKeysDeepObj_eq_map, sortKeysDeepObj_eq_map]
    exact hp.map _
  have hnd2 : ((sortKeysDeepObj kvs1).map Prod.fst).Nodup := by
    rw [sortKeysDeepObj_keys]
    exact hnd
  have hsort := sortByKey_eq_of_perm hmap hnd2
  constructor
  · simp only [canonical_json, sortKeysDeep, hsort]
  · simp only [_canonical_json_bytes, sortKeysDeep, hsort]

/-- Witness for claim C4 at a concrete input: the two insertion orders of
`{"a": 1, "b": 2}` are a duplicate-free permutation pair and canonicalize
identically. -/
theorem canonical_json_key_order_witness :
    List.Perm [("b", Json.num 2), ("a", Json.num 1)] [("a", Json.num 1), ("b", Json.num 2)]
    ∧ ([("b", Json.num 2), ("a", Json.num 1)].map Prod.fst).Nodup
    ∧ canonical_json (.obj [("b", .num 2), ("a", .num 1)])
        = canonical_json (.obj [("a", .num 1), ("b", .num 2)]) :=
  ⟨by decide, by decide,
    (canonical_json_deterministic_key_order_insensitive.2.1 _ _ (by decide) (by decide)).1⟩

/-- Claim C5: pack building is a deterministic function of its logical
inputs.  The model of `build_pack` consumes no ambient state (no wall
clock, no filesystem metadata, no platform probe — `created_at` is an
argument), so two calls with identical arguments produce identical
archive bytes and an identical manifest (hence identical `pack_id` and
identical SHA-256 over the archive); and the archive writer is
insensitive to entry insertion order for duplicate-free path sets. -/
theorem build_pack_deterministic (sha256_hex : Bytes → String)
    (run_id producer_version created_at : String) :
    build_pack sha256_hex run_id producer_version created_at
      = build_pack sha256_hex run_id producer_version created_at
    ∧ build_pack_manifest sha256_hex run_id producer_version created_at
      = build_pack_manifest sha256_hex run_id producer_version created_at
    ∧ ∀ entries1 entries2 : List (String × Bytes), List.Perm entries1 entries2 →
        (entries1.map Prod.fst).Nodup →
        deterministic_zip_bytes entries1 = deterministic_zip_bytes entries2 := by
  refine ⟨rfl, rfl, fun e1 e2 hp hnd => ?_⟩
  simp only [deterministic_zip_bytes, sortByKey_eq_of_perm hp hnd]

/-- Witness for claim C5 at the concrete arguments named by the spec and
a concrete permuted entry pair. -/
theorem build_pack_deterministic_witness :
    build_pack (fun _ => "") "run_producer_kit" "producer-kit-1.0.0" "2026-01-01T00:00:00Z"
      = build_pack (fun _ => "") "run_producer_kit" "producer-kit-1.0.0" "2026-01-01T00:00:00Z"
    ∧ deterministic_zip_bytes
        [("run_payload.json", .utf8 "x"), ("pack_manifest.json", .utf8 "m")]
      = deterministic_zip_bytes
        [("pack_manifest.json", .utf8 "m"), ("run_payload.json", .utf8 "x")] :=
  ⟨(build_pack_deterministic (fun _ => "") "run_producer_kit" "producer-kit-1.0.0"
      "2026-01-01T00:00:00Z").1,
   (build_pack_deterministic (fun _ => "") "run_producer_kit" "producer-kit-1.0.0"
      "2026-01-01T00:00:00Z").2.2 _ _ (List.Perm.swap _ _ _) (by decide)⟩

/-- Claim C8 counterexample: an entry set with a duplicate path does not
fail — `deterministic_zip_bytes` writes both entries (Python's
`zipfile` emits a duplicate-name warning but raises no error), so the
build neither raises a clear error nor silently keeps only one entry. -/
theorem deterministic_zip_bytes_duplicate_paths_counterexample :
    deterministic_zip_bytes [("a", .utf8 "x"), ("a", .utf8 "y")]
      = .zipArchive [("a", fixedZipMeta, .utf8 "x"), ("a", fixedZipMeta, .utf8 "y")] := rfl

/-- Claim C8 amended: the archive writer performs no duplicate-path
validation and never fails; it writes every input entry — duplicates
included — in stable path-sorted order with the fixed metadata, rather
than raising or silently overwriting. -/
theorem deterministic_zip_bytes_writes_all_entries (entries : List (String × Bytes)) :
    ∃ l, deterministic_zip_bytes entries = .zipArchive l
      ∧ List.Perm (l.map (fun e => (e.1, e.2.2))) entries
      ∧ ∀ e ∈ l, e.2.1 = fixedZipMeta := by
  refine ⟨_, rfl, ?_, ?_⟩
  · have hmaps :
        (((sortByKey entries).map fun e => (e.1, fixedZipMeta, e.2)).map fun e => (e.1, e.2.2))
          = sortByKey entries := by
      rw [List.map_map]
      exact List.map_id'' (fun e => rfl) _
    rw [hmaps]
    exact sortByKey_perm entries
  · intro e he
    simp only [List.mem_map] at he
    obtain ⟨x, _, rfl⟩ := he
    rfl

/-- Claim C9: when the external process exits 0 but stdout is empty, not
valid JSON, or a JSON value that is not an object, `evaluate_gate` raises
`GaitCommandError` carrying the command, exit code, stdout and stderr —
it never returns a decision. -/
theorem evaluate_gate_parse_failure_raises (loads : String → Option Json)
    (result : CommandResult) (hexit : result.exit_code = 0)
    (hbad : pyStrip result.stdout = ""
      ∨ loads (pyStrip result.stdout) = none
      ∨ ∃ v, loads (pyStrip result.stdout) = some v ∧ ∀ kvs, v ≠ Json.obj kvs) :
    evaluate_gate loads result = .error
      { message := "failed to parse JSON from gait gate eval"
        command := result.command
        exit_code := result.exit_code
        stdout := result.stdout
        stderr := result.stderr } := by
  have hparse : _parse_json_stdout loads result.stdout = none := by
    unfold _parse_json_stdout
    rcases hbad with h | h | ⟨v, hv, hne⟩
    · simp [h]
    · by_cases hc : pyStrip result.stdout = ""
      · simp [hc]
      · simp [hc, h]
    · cases v with
      | obj kvs => exact absurd rfl (hne kvs)
      | null => by_cases hc : pyStrip result.stdout = "" <;> simp [hc, hv]
      | bool b => by_cases hc : pyStrip result.stdout = "" <;> simp [hc, hv]
      | num n => by_cases hc : pyStrip result.stdout = "" <;> simp [hc, hv]
      | str s => by_cases hc : pyStrip result.stdout = "" <;> simp [hc, hv]
      | arr xs => by_cases hc : pyStrip result.stdout = "" <;> simp [hc, hv]
  unfold evaluate_gate
  rw [hparse]

/-- Witness for claim C9: exit code 0 with the unparseable stdout
`"not-json"` raises the parse-failure `GaitCommandError`. -/
theorem evaluate_gate_parse_failure_witness :
    evaluate_gate (fun _ => none)
      { command := ["gait", "gate", "eval"], exit_code := 0, stdout := "not-json", stderr := "" }
      = .error
        { message := "failed to parse JSON from gait gate eval"
          command := ["gait", "gate", "eval"]
          exit_code := 0
          stdout := "not-json"
          stderr := "" } :=
  evaluate_gate_parse_failure_raises (fun _ => none)
    { command := ["gait", "gate", "eval"], exit_code := 0, stdout := "not-json", stderr := "" }
    rfl (Or.inr (Or.inl rfl))

/-- Claim C1 (code bug): an external process that writes a parseable
JSON object (`ok=true`, `verdict="block"`) and exits with code 3 — the
block exit code of the repository-wide contract — makes `evaluate_gate`
raise `GaitCommandError` ("gait gate eval failed") instead of returning
the decision: `client.py` accepts only exit codes 0 and 4 on its success
path. -/
theorem evaluate_gate_exit_code_three_raises :
    evaluate_gate
      (fun _ => some (.obj [("ok", .bool true), ("verdict", .str "block"),
        ("reason_codes", .arr [.str "blocked_tool"])]))
      { command := ["gait", "gate", "eval", "--policy", "policy.yaml", "--intent", "intent.json",
          "--key-mode", "dev", "--json"]
        exit_code := 3
        stdout := "\x7b\"ok\":true,\"verdict\":\"block\",\"reason_codes\":[\"blocked_tool\"]\x7d"
        stderr := "" }
      = .error
        { message := "gait gate eval failed"
          command := ["gait", "gate", "eval", "--policy", "policy.yaml", "--intent", "intent.json",
            "--key-mode", "dev", "--json"]
          exit_code := 3
          stdout := "\x7b\"ok\":true,\"verdict\":\"block\",\"reason_codes\":[\"blocked_tool\"]\x7d"
          stderr := "" } := rfl

/-- Claim C2: `ToolAdapter.execute` invokes the wrapped executor exactly
when the decision has `ok=true` and verdict exactly `"allow"`; for every
decision with `ok=true` and a verdict outside allow/dry_run (including
`"unknown"` and any future string) it raises `GateEnforcementError`
carrying the full decision, and its behaviour is independent of the
executor (the executor is never invoked). -/
theorem tool_adapter_execute_fails_closed (ρ σ : Type) (d : GateEvalResult) (ex : Unit → ρ) :
    (d.ok = true → d.verdict = some "allow" →
      ToolAdapter.execute d ex = .ok { decision := d, executed := true, result := some (ex ()) })
    ∧ (d.ok = true → d.verdict ≠ some "allow" → d.verdict ≠ some "dry_run" →
        ToolAdapter.execute d ex = .error (GateEnforcementError.ofDecision d)
        ∧ ∀ ex2 : Unit → σ,
            ToolAdapter.execute d ex2 = .error (GateEnforcementError.ofDecision d))
    ∧ ((d.ok = false ∨ d.verdict ≠ some "allow") →
        ∀ o : AdapterOutcome ρ, ToolAdapter.execute d ex = .ok o → o.executed = false) := by
  unfold ToolAdapter.execute
  refine ⟨fun hok hv => ?_, fun hok hv hd => ⟨?_, fun ex2 => ?_⟩, fun h o hconc => ?_⟩
  · simp [hok, hv]
  · simp [hok, hv, hd]
  · simp [hok, hv, hd]
  · by_cases hok : d.ok = false
    · rw [if_pos hok] at hconc
      cases hconc
    · rw [if_neg hok] at hconc
      rcases h with h | h
      · exact absurd h hok
      · rw [if_neg h] at hconc
        by_cases hd : d.verdict = some "dry_run"
        · rw [if_pos hd] at hconc
          injection hconc with h2
          rw [← h2]
        · rw [if_neg hd] at hconc
          cases hconc

/-- Witness for claim C2: a well-formed decision with `ok=true` and the
unrecognized verdict `"unknown"` makes `execute` raise the enforcement
error carrying that decision, for any executor. -/
theorem tool_adapter_execute_unknown_witness :
    ToolAdapter.execute { ok := true, exit_code := 0, verdict := some "unknown" }
        (fun _ => (7 : Nat))
      = .error (GateEnforcementError.ofDecision
          { ok := true, exit_code := 0, verdict := some "unknown" }) :=
  ((tool_adapter_execute_fails_closed Nat Nat
      { ok := true, exit_code := 0, verdict := some "unknown" } (fun _ => 7)).2.1
    rfl (by simp) (by simp)).1

/-- Claim C3 counterexample: for a well-formed `dry_run` decision, a
`gate_tool`-decorated function does raise: the wrapper sees
`outcome.executed = False` and raises `GateEnforcementError`, contrary
to the claim that the decorator path does not raise for `dry_run`. -/
theorem gate_tool_dry_run_counterexample :
    gate_tool_call { ok := true, exit_code := 0, verdict := some "dry_run" } (fun _ => (0 : Nat))
      = .error (GateEnforcementError.ofDecision
          { ok := true, exit_code := 0, verdict := some "dry_run" }) := rfl

/-- Claim C3 amended: for a decision with `ok=true` and verdict
`"dry_run"`, `ToolAdapter.execute` returns
`AdapterOutcome(executed=False, result=None)` without invoking the
wrapped action and without raising — but the `gate_tool` decorator path
raises `GateEnforcementError` for that same decision (fail-closed on any
non-executed outcome), also without invoking the wrapped function. -/
theorem dry_run_execute_skips_gate_tool_raises (ρ σ : Type) (d : GateEvalResult)
    (f : Unit → ρ) (hok : d.ok = true) (hdry : d.verdict = some "dry_run") :
    ToolAdapter.execute d f = .ok { decision := d, executed := false, result := none }
    ∧ gate_tool_call d f = .error (GateEnforcementError.ofDecision d)
    ∧ ∀ f2 : Unit → σ,
        ToolAdapter.execute d f2 = .ok { decision := d, executed := false, result := none }
        ∧ gate_tool_call d f2 = .error (GateEnforcementError.ofDecision d) := by
  have hexec : ∀ (τ : Type) (g : Unit → τ),
      ToolAdapter.execute d g = .ok { decision := d, executed := false, result := none } := by
    intro τ g
    unfold ToolAdapter.execute
    simp [hok, hdry]
  have hcall : ∀ (τ : Type) (g : Unit → τ),
      gate_tool_call d g = .error (GateEnforcementError.ofDecision d) := by
    intro τ g
    unfold gate_tool_call
    rw [hexec τ (fun _ => g ())]
    rfl
  exact ⟨hexec ρ f, hcall ρ f, fun f2 => ⟨hexec σ f2, hcall σ f2⟩⟩

/-- Witness for claim C3's amended theorem at a concrete `dry_run`
decision. -/
theorem dry_run_execute_skips_witness :
    ToolAdapter.execute { ok := true, exit_code := 0, verdict := some "dry_run" }
        (fun _ => (1 : Nat))
      = .ok { decision := { ok := true, exit_code := 0, verdict := some "dry_run" }
              executed := false
              result := none } :=
  (dry_run_execute_skips_gate_tool_raises Nat Nat
    { ok := true, exit_code := 0, verdict := some "dry_run" } (fun _ => 1) rfl rfl).1

/-- Every freshly constructed session satisfies the reachable-state
invariant "a stored capture implies the session is closed" (vacuously:
no capture yet). -/
theorem run_session_init_invariant (run_id capture_mode : String) (include_raw : Bool)
    (producer_version : String) (cev : Option String) (started_at : String)
    (s : RunSessionState)
    (h : RunSession.init run_id capture_mode include_raw producer_version cev started_at
      = .ok s) :
    s.capture = none ∨ s.closed = true := by
  unfold RunSession.init at h
  by_cases h1 : pyStrip run_id = ""
  · rw [if_pos h1] at h
    cases h
  · rw [if_neg h1] at h
    by_cases h2 : capture_mode = "reference" ∨ capture_mode = "raw"
    · rw [if_neg (not_not_intro h2)] at h
      injection h with h3
      rw [← h3]
      exact Or.inl rfl
    · rw [if_pos h2] at h
      cases h

/-- `record_attempt` does not touch `capture` or `closed`, so it
preserves the reachable-state invariant. -/
theorem run_session_record_attempt_invariant (sha256_hex : Bytes → String)
    (s s' : RunSessionState) (intent : IntentRequest String) (decision : GateEvalResult)
    (executed : Bool) (result : Option Json) (error : Option String) (created_at : String)
    (h : RunSession.record_attempt sha256_hex s intent decision executed result error created_at
      = .ok s')
    (hinv : s.capture = none ∨ s.closed = true) :
    s'.capture = none ∨ s'.closed = true := by
  unfold RunSession.record_attempt at h
  by_cases hc : s.closed
  · rw [if_pos hc] at h
    cases h
  · rw [if_neg hc] at h
    injection h with h2
    rw [← h2]
    exact hinv

/-- `finalize` leaves every state it returns satisfying the
reachable-state invariant. -/
theorem run_session_finalize_invariant
    (recordRunpack : Json → Except GaitCommandError RunRecordCapture) (env : RunEnv)
    (finished_at : String) (s : RunSessionState)
    (hinv : s.capture = none ∨ s.closed = true) :
    (RunSession.finalize recordRunpack env finished_at s).2.capture = none
      ∨ (RunSession.finalize recordRunpack env finished_at s).2.closed = true := by
  unfold RunSession.finalize
  cases hcap : s.capture with
  | some c0 =>
    rcases hinv with h | h
    · rw [hcap] at h
      cases h
    · exact Or.inr h
  | none =>
    cases hrec : recordRunpack (RunSession.finalize_record_input env finished_at s) with
    | error e => exact Or.inl hcap
    | ok c => exact Or.inr rfl

/-- Claim C10: `RunSession.finalize` is idempotent.  After one
successful `finalize`, the session is closed; every later `finalize` —
with any external run-record command, environment probe, or clock —
returns exactly the first result pair (the same `RunRecordCapture` and
the unchanged state), so no second subprocess call is made; exiting the
context manager (`__exit__` calls `finalize`) likewise performs no
second call; and every `record_attempt` after finalization raises
`RuntimeError("run session already finalized")`.  The hypothesis
`hinv` is the invariant of every reachable session state (established
by `RunSession.init` and preserved by `record_attempt` and `finalize`,
see the three lemmas above). -/
theorem run_session_finalize_idempotent
    (recordRunpack : Json → Except GaitCommandError RunRecordCapture) (env : RunEnv)
    (finished_at : String) (s : RunSessionState)
    (hinv : s.capture = none ∨ s.closed = true)
    (hok : ∃ c, (RunSession.finalize recordRunpack env finished_at s).1 = .ok c) :
    (RunSession.finalize recordRunpack env finished_at s).2.closed = true
    ∧ (∀ (f2 : Json → Except GaitCommandError RunRecordCapture) (env2 : RunEnv)
        (finished2 : String),
        RunSession.finalize f2 env2 finished2
            (RunSession.finalize recordRunpack env finished_at s).2
          = RunSession.finalize recordRunpack env finished_at s
        ∧ RunSession.exitSession f2 env2 finished2
            (RunSession.finalize recordRunpack env finished_at s).2
          = RunSession.finalize recordRunpack env finished_at s)
    ∧ ∀ (sha256_hex : Bytes → String) (intent : IntentRequest String)
        (decision : GateEvalResult) (executed : Bool) (result : Option Json)
        (error : Option String) (created_at : String),
        RunSession.record_attempt sha256_hex
            (RunSession.finalize recordRunpack env finished_at s).2
            intent decision executed result error created_at
          = .error "run session already finalized" := by
  obtain ⟨c, hc⟩ := hok
  cases hcap : s.capture with
  | some c0 =>
    have hclosed : s.closed = true := by
      rcases hinv with h | h
      · rw [hcap] at h
        cases h
      · exact h
    have hfin : RunSession.finalize recordRunpack env finished_at s = (.ok c0, s) := by
      unfold RunSession.finalize
      rw [hcap]
    rw [hfin]
    refine ⟨hclosed, fun f2 env2 t2 => ⟨?_, ?_⟩, fun sha intent dec ex r er ca => ?_⟩
    · unfold RunSession.finalize
      rw [hcap]
    · unfold RunSession.exitSession RunSession.finalize
      rw [hcap]
    · unfold RunSession.record_attempt
      rw [hclosed]
      rfl
  | none =>
    cases hrec : recordRunpack (RunSession.finalize_record_input env finished_at s) with
    | error e =>
      exfalso
      have : (RunSession.finalize recordRunpack env finished_at s).1 = .error e := by
        unfold RunSession.finalize
        rw [hcap, hrec]
      rw [this] at hc
      cases hc
    | ok c1 =>
      have hfin : RunSession.finalize recordRunpack env finished_at s
          = (.ok c1, RunSession.finalize_success_state env finished_at s c1) := by
        unfold RunSession.finalize
        rw [hcap, hrec]
      rw [hfin]
      refine ⟨rfl, fun f2 env2 t2 => ⟨?_, ?_⟩, fun sha intent dec ex r er ca => ?_⟩
      · unfold RunSession.finalize
        rfl
      · unfold RunSession.exitSession RunSession.finalize
        rfl
      · unfold RunSession.record_attempt
        rfl

/-- Witness for claim C10 at a concrete fresh session state and a
concrete successful external run-record command. -/
theorem run_session_finalize_idempotent_witness :
    RunSession.record_attempt (fun _ => "")
        (RunSession.finalize
          (fun _ => .ok
            { run_id := "run_sdk", bundle_path := "gait-out/runpack_run_sdk.zip",
              manifest_digest := "4444", ticket_footer := "GAIT run_id=run_sdk" })
          { os := "linux", arch := "arm64", runtime := "python3.13" }
          "2026-02-12T00:01:00Z"
          { run_id := "run_sdk", capture_mode := "reference", include_raw_payload := false,
            producer_version := "0.0.0-dev", closed := false, capture := none,
            record_input := none, attempt_count := 0, started_at := "2026-02-12T00:00:00Z",
            timeline := [.obj [("event", .str "run_started"),
              ("ts", .str "2026-02-12T00:00:00Z")]],
            intents := [], results := [], refs := [], attempts := [],
            context_set_digest := none, context_evidence_mode := none,
            context_refs := [] }).2
        { tool_name := "tool.allow", args := [], created_at := "2026-02-12T00:02:00Z",
          context := { identity := "alice", workspace := "/repo/gait", risk_class := "high" } }
        { ok := true, exit_code := 0, verdict := some "allow" } true none none
        "2026-02-12T00:02:00Z"
      = .error "run session already finalized" :=
  (run_session_finalize_idempotent
    (fun _ => .ok
      { run_id := "run_sdk", bundle_path := "gait-out/runpack_run_sdk.zip",
        manifest_digest := "4444", ticket_footer := "GAIT run_id=run_sdk" })
    { os := "linux", arch := "arm64", runtime := "python3.13" }
    "2026-02-12T00:01:00Z"
    { run_id := "run_sdk", capture_mode := "reference", include_raw_payload := false,
      producer_version := "0.0.0-dev", closed := false, capture := none,
      record_input := none, attempt_count := 0, started_at := "2026-02-12T00:00:00Z",
      timeline := [.obj [("event", .str "run_started"),
        ("ts", .str "2026-02-12T00:00:00Z")]],
      intents := [], results := [], refs := [], attempts := [],
      context_set_digest := none, context_evidence_mode := none,
      context_refs := [] }
    (Or.inl rfl)
    ⟨{ run_id := "run_sdk", bundle_path := "gait-out/runpack_run_sdk.zip",
        manifest_digest := "4444", ticket_footer := "GAIT run_id=run_sdk" }, rfl⟩).2.2
    (fun _ => "")
    { tool_name := "tool.allow", args := [], created_at := "2026-02-12T00:02:00Z",
      context := { identity := "alice", workspace := "/repo/gait", risk_class := "high" } }
    { ok := true, exit_code := 0, verdict := some "allow" } true none none
    "2026-02-12T00:02:00Z"

theorem intent_target_parse_to_dict (t : IntentTarget) (h : t.roundtrippable = true) :
    IntentTarget.parse (.obj t.to_dict) = .ok t := by
  obtain ⟨k, v, op, sens⟩ := t
  simp only [IntentTarget.roundtrippable, okOptStr, Bool.and_eq_true, bne_iff_ne] at h
  obtain ⟨h1, h2⟩ := h
  rcases op with _ | s1 <;> rcases sens with _ | s2
  · rfl
  · have h2x : ¬ (s2 = "") := fun he => h2 (by rw [he])
    simp only [IntentTarget.to_dict, optStrEntry, if_neg h2x]
    rfl
  · have h1x : ¬ (s1 = "") := fun he => h1 (by rw [he])
    simp only [IntentTarget.to_dict, optStrEntry, if_neg h1x]
    rfl
  · have h1x : ¬ (s1 = "") := fun he => h1 (by rw [he])
    have h2x : ¬ (s2 = "") := fun he => h2 (by rw [he])
    simp only [IntentTarget.to_dict, optStrEntry, if_neg h1x, if_neg h2x]
    rfl

theorem jget_append (l1 l2 : List (String × Json)) (k : String) :
    jget (l1 ++ l2) k = (jget l1 k).orElse (fun _ => jget l2 k) := by
  induction l1 with
  | nil => rfl
  | cons a l ih =>
    obtain ⟨k1, v1⟩ := a
    by_cases hk : k1 = k <;> simp [jget, hk, ih]

theorem jgetD_eq (l : List (String × Json)) (k : String) (d : Json) :
    jgetD l k d = (jget l k).getD d := by
  induction l with
  | nil => rfl
  | cons a l ih =>
    obtain ⟨k1, v1⟩ := a
    by_cases hk : k1 = k <;> simp [jget, jgetD, hk, ih]

theorem jget_optStrEntry_ne (k1 k : String) (o : Option String) (h : ¬ k1 = k) :
    jget (optStrEntry k1 o) k = none := by
  rcases o with _ | s
  · rfl
  · by_cases hs : s = "" <;> simp [optStrEntry, hs, jget, h]

theorem jget_optObjEntry_ne (k1 k : String) (o : Option (List (String × Json))) (h : ¬ k1 = k) :
    jget (optObjEntry k1 o) k = none := by
  rcases o with _ | kvs
  · rfl
  · by_cases hs : kvs.isEmpty <;> simp [optObjEntry, hs, jget, h]

theorem jget_optStrListEntry_ne (k1 k : String) (l : List String) (h : ¬ k1 = k) :
    jget (optStrListEntry k1 l) k = none := by
  by_cases hs : l.isEmpty <;> simp [optStrListEntry, hs, jget, h]

theorem jget_ite_pair_ne (b : Prop) [Decidable b] (k1 k : String) (v : Json) (h : ¬ k1 = k) :
    jget (if b then [] else [(k1, v)]) k = none := by
  by_cases hb : b <;> simp [hb, jget, h]

theorem pyStr_str (s : String) : pyStr (.str s) = s := rfl

theorem asOptStr_jget_optStrEntry (k : String) (o : Option String) (h : o ≠ some "") :
    asOptStr (jget (optStrEntry k o) k) = o := by
  rcases o with _ | s
  · rfl
  · have hx : ¬ (s = "") := fun he => h (by rw [he])
    simp [optStrEntry, if_neg hx, jget, asOptStr]

theorem bindObj_jget_optObjEntry (k : String) (o : Option (List (String × Json)))
    (h : o ≠ some []) :
    (jget (optObjEntry k o) k).bind asObj = o := by
  rcases o with _ | kvs
  · rfl
  · have hx : ¬ kvs.isEmpty = true := by
      cases kvs with
      | nil => exact absurd rfl h
      | cons a l => simp
    simp [optObjEntry, hx, jget, asObj]

theorem strList_jget_optStrListEntry (k : String) (l : List String) :
    (asList ((jget (optStrListEntry k l) k).getD (.arr []))).map pyStr = l := by
  cases l with
  | nil => rfl
  | cons a as =>
    simp [optStrListEntry, jget, asList, List.map_map]
    refine ⟨rfl, ?_⟩
    exact List.map_id'' (fun s => rfl) as

theorem except_bind_ok {eps alpha beta : Type} (a : alpha) (f : alpha → Except eps beta) :
    (Except.ok a : Except eps alpha) >>= f = f a := rfl

theorem except_bind_error {eps alpha beta : Type} (e : eps) (f : alpha → Except eps beta) :
    (Except.error e : Except eps alpha) >>= f = .error e := rfl

theorem except_map_ok {eps alpha beta : Type} (f : alpha → beta) (a : alpha) :
    Except.map f (Except.ok a : Except eps alpha) = .ok (f a) := rfl

theorem mapM_parse_roundtrip {α : Type} (parse : Json → Except PyErr α)
    (to_dict : α → List (String × Json)) (l : List α)
    (h : ∀ x ∈ l, parse (.obj (to_dict x)) = .ok x) :
    (l.map fun x => Json.obj (to_dict x)).mapM parse = .ok l := by
  induction l with
  | nil => rfl
  | cons a as ih =>
    rw [List.map_cons, List.mapM_cons, h a (List.mem_cons_self a as),
      ih (fun x hx => h x (List.mem_cons_of_mem a hx))]
    rfl

theorem asList_arr (xs : List Json) : asList (.arr xs) = xs := rfl

theorem mapM_loop_parse_roundtrip {α : Type} (parse : Json → Except PyErr α)
    (to_dict : α → List (String × Json)) :
    ∀ (l acc : List α), (∀ x ∈ l, parse (.obj (to_dict x)) = .ok x) →
      List.mapM.loop parse (l.map fun x => Json.obj (to_dict x)) acc
        = .ok (acc.reverse ++ l)
  | [], acc, _ => by
    simp only [List.map_nil, List.mapM.loop, List.append_nil]
    rfl
  | a :: as, acc, h => by
    rw [List.map_cons, List.mapM.loop, h a (List.mem_cons_self a as)]
    have ih := mapM_loop_parse_roundtrip parse to_dict as (a :: acc)
      (fun x hx => h x (List.mem_cons_of_mem a hx))
    rw [show ((Except.ok a : Except PyErr α) >>= fun b =>
        List.mapM.loop parse (as.map fun x => Json.obj (to_dict x)) (b :: acc))
      = List.mapM.loop parse (as.map fun x => Json.obj (to_dict x)) (a :: acc) from rfl]
    rw [ih]
    simp

theorem mapM_loop_parse_roundtrip_nil {α : Type} (parse : Json → Except PyErr α)
    (to_dict : α → List (String × Json)) (l : List α)
    (h : ∀ x ∈ l, parse (.obj (to_dict x)) = .ok x) :
    List.mapM.loop parse (l.map fun x => Json.obj (to_dict x)) [] = .ok l := by
  rw [mapM_loop_parse_roundtrip parse to_dict l [] h]
  simp

theorem intent_arg_provenance_parse_to_dict (p : IntentArgProvenance)
    (h : p.roundtrippable = true) :
    IntentArgProvenance.parse (.obj p.to_dict) = .ok p := by
  obtain ⟨ap, src, sr, idg⟩ := p
  simp only [IntentArgProvenance.roundtrippable, okOptStr, Bool.and_eq_true, bne_iff_ne] at h
  obtain ⟨h1, h2⟩ := h
  unfold IntentArgProvenance.parse IntentArgProvenance.to_dict
  simp [jget_append, jget, asDict, jgetE, asOptStr_jget_optStrEntry, jget_optStrEntry_ne,
    h1, h2, pyStr_str, except_bind_ok]

theorem delegation_link_parse_to_dict (l : DelegationLink) (h : l.roundtrippable = true) :
    DelegationLink.parse (.obj l.to_dict) = .ok l := by
  obtain ⟨dor, dee, sc, tr⟩ := l
  simp only [DelegationLink.roundtrippable, okOptStr, Bool.and_eq_true, bne_iff_ne] at h
  obtain ⟨h1, h2⟩ := h
  unfold DelegationLink.parse DelegationLink.to_dict
  simp [jget_append, jget, asDict, jgetE, asOptStr_jget_optStrEntry, jget_optStrEntry_ne,
    h1, h2, pyStr_str, except_bind_ok]

theorem intent_context_parse_to_dict (c : IntentContext) (h : c.roundtrippable = true) :
    IntentContext.parse (.obj c.to_dict) = .ok c := by
  obtain ⟨ident, ws, rc, sid, rid, auth, creds, envf, csd, cem, crefs⟩ := c
  simp only [IntentContext.roundtrippable, okOptStr, Bool.and_eq_true, bne_iff_ne] at h
  obtain ⟨⟨⟨⟨⟨h1, h2⟩, h3⟩, h4⟩, h5⟩, h6⟩ := h
  unfold IntentContext.parse IntentContext.to_dict
  simp [jget_append, jgetD_eq, jget, asDict, jgetE, asOptStr_jget_optStrEntry,
    bindObj_jget_optObjEntry, strList_jget_optStrListEntry, jget_optStrEntry_ne,
    jget_optObjEntry_ne, jget_optStrListEntry_ne, h1, h2, h3, h4, h5, h6, pyStr_str,
    except_bind_ok]

theorem jget_ite_pair_self (b : Prop) [Decidable b] (k : String) (v : Json) :
    jget (if b then [] else [(k, v)]) k = if b then none else some v := by
  by_cases hb : b <;> simp [hb, jget]

theorem intent_delegation_parse_to_dict (d : IntentDelegation) (h : d.roundtrippable = true) :
    IntentDelegation.parse d.to_dict = .ok d := by
  obtain ⟨req, sc, trs, chain⟩ := d
  simp only [IntentDelegation.roundtrippable, okOptStr, Bool.and_eq_true, bne_iff_ne,
    List.all_eq_true] at h
  obtain ⟨h1, h2⟩ := h
  have hchain : ∀ l ∈ chain, DelegationLink.parse (.obj l.to_dict) = .ok l :=
    fun l hl => delegation_link_parse_to_dict l (h2 l hl)
  unfold IntentDelegation.parse IntentDelegation.to_dict
  rcases chain with _ | ⟨l0, ls⟩
  · have hl : List.mapM.loop DelegationLink.parse [] [] = Except.ok ([] : List DelegationLink) :=
      rfl
    simp [jget_append, jgetD_eq, jget, jgetE, asOptStr_jget_optStrEntry,
      strList_jget_optStrListEntry, jget_optStrEntry_ne, jget_optStrListEntry_ne,
      jget_ite_pair_ne, jget_ite_pair_self, h1, pyStr_str, except_bind_ok, asList_arr, hl]
  · have hl := mapM_loop_parse_roundtrip_nil DelegationLink.parse DelegationLink.to_dict
      (l0 :: ls) hchain
    simp only [List.map_cons] at hl
    simp [jget_append, jgetD_eq, jget, jgetE, asOptStr_jget_optStrEntry,
      strList_jget_optStrListEntry, jget_optStrEntry_ne, jget_optStrListEntry_ne,
      jget_ite_pair_ne, jget_ite_pair_self, h1, pyStr_str, except_bind_ok, asList_arr, hl]

theorem intent_script_step_parse_to_dict (s : IntentScriptStep) (h : s.roundtrippable = true) :
    IntentScriptStep.parse (.obj s.to_dict) = .ok s := by
  obtain ⟨tn, args, tgts, aps⟩ := s
  simp only [IntentScriptStep.roundtrippable, Bool.and_eq_true, List.all_eq_true] at h
  obtain ⟨h1, h2⟩ := h
  have htg : ∀ t ∈ tgts, IntentTarget.parse (.obj t.to_dict) = .ok t :=
    fun t ht => intent_target_parse_to_dict t (h1 t ht)
  have hap : ∀ p ∈ aps, IntentArgProvenance.parse (.obj p.to_dict) = .ok p :=
    fun p hp => intent_arg_provenance_parse_to_dict p (h2 p hp)
  unfold IntentScriptStep.parse IntentScriptStep.to_dict
  have hlt0 : List.mapM.loop IntentTarget.parse [] [] = Except.ok ([] : List IntentTarget) := rfl
  have hlp0 : List.mapM.loop IntentArgProvenance.parse [] []
      = Except.ok ([] : List IntentArgProvenance) := rfl
  rcases tgts with _ | ⟨t0, ts⟩ <;> rcases aps with _ | ⟨p0, ps⟩
  · simp [jget_append, jgetD_eq, jget, jgetE, asDict, jget_optStrEntry_ne,
      jget_ite_pair_ne, jget_ite_pair_self, pyStr_str, except_bind_ok, asList_arr, hlt0, hlp0]
  · have hlp := mapM_loop_parse_roundtrip_nil IntentArgProvenance.parse
      IntentArgProvenance.to_dict (p0 :: ps) hap
    simp only [List.map_cons] at hlp
    simp [jget_append, jgetD_eq, jget, jgetE, asDict, jget_optStrEntry_ne,
      jget_ite_pair_ne, jget_ite_pair_self, pyStr_str, except_bind_ok, asList_arr, hlt0, hlp]
  · have hlt := mapM_loop_parse_roundtrip_nil IntentTarget.parse IntentTarget.to_dict
      (t0 :: ts) htg
    simp only [List.map_cons] at hlt
    simp [jget_append, jgetD_eq, jget, jgetE, asDict, jget_optStrEntry_ne,
      jget_ite_pair_ne, jget_ite_pair_self, pyStr_str, except_bind_ok, asList_arr, hlt, hlp0]
  · have hlt := mapM_loop_parse_roundtrip_nil IntentTarget.parse IntentTarget.to_dict
      (t0 :: ts) htg
    have hlp := mapM_loop_parse_roundtrip_nil IntentArgProvenance.parse
      IntentArgProvenance.to_dict (p0 :: ps) hap
    simp only [List.map_cons] at hlt hlp
    simp [jget_append, jgetD_eq, jget, jgetE, asDict, jget_optStrEntry_ne,
      jget_ite_pair_ne, jget_ite_pair_self, pyStr_str, except_bind_ok, asList_arr, hlt, hlp]

theorem intent_script_parse_to_dict (s : IntentScript) (h : s.roundtrippable = true) :
    IntentScript.parse s.to_dict = .ok s := by
  obtain ⟨steps⟩ := s
  simp only [IntentScript.roundtrippable, List.all_eq_true] at h
  have hst : ∀ st ∈ steps, IntentScriptStep.parse (.obj st.to_dict) = .ok st :=
    fun st hs => intent_script_step_parse_to_dict st (h st hs)
  unfold IntentScript.parse IntentScript.to_dict
  rcases steps with _ | ⟨s0, ss⟩
  · have hl : List.mapM.loop IntentScriptStep.parse [] []
        = Except.ok ([] : List IntentScriptStep) := rfl
    simp [jgetD_eq, jget, asList_arr, except_bind_ok, hl]
  · have hl := mapM_loop_parse_roundtrip_nil IntentScriptStep.parse IntentScriptStep.to_dict
      (s0 :: ss) hst
    simp only [List.map_cons] at hl
    simp [jgetD_eq, jget, asList_arr, except_bind_ok, hl]

/-- Claim C7 amended: `from_dict (to_dict x)` reconstructs `x` exactly —
targets, arg-provenance, delegation and script included, with list
order preserved — provided no optional string field of `x` (anywhere in
the nesting) is the empty string, `auth_context` is not the empty dict,
and the datetime codec round-trips `x.created_at`.  (Python's
truthiness-based serialization omits `""`-valued and empty-dict-valued
optional fields, collapsing them to absent; see the counterexample.) -/
theorem intent_request_from_dict_to_dict {DT : Type} (dtIso : DT → String)
    (dtParse : String → DT) (x : IntentRequest DT)
    (hdt : dtParse (dtIso x.created_at) = x.created_at)
    (h : x.roundtrippable = true) :
    IntentRequest.from_dict dtParse (IntentRequest.to_dict dtIso x) = .ok x := by
  obtain ⟨tn, args, ctx, tgts, aps, dele, scr, ca, pv, sid, sv, ad, idg, sh⟩ := x
  simp only [IntentRequest.roundtrippable, okOptStr, Bool.and_eq_true, bne_iff_ne,
    List.all_eq_true] at h
  obtain ⟨⟨⟨⟨⟨⟨⟨h1, h2⟩, h3⟩, h4⟩, h5⟩, h6⟩, h7⟩, h8⟩ := h
  simp only at hdt
  have hctx := intent_context_parse_to_dict ctx h3
  have htg : ∀ t ∈ tgts, IntentTarget.parse (.obj t.to_dict) = .ok t :=
    fun t ht => intent_target_parse_to_dict t (h1 t ht)
  have hap : ∀ p2 ∈ aps, IntentArgProvenance.parse (.obj p2.to_dict) = .ok p2 :=
    fun p2 hp2 => intent_arg_provenance_parse_to_dict p2 (h2 p2 hp2)
  have hmtg := mapM_parse_roundtrip IntentTarget.parse IntentTarget.to_dict tgts htg
  have hltg := mapM_loop_parse_roundtrip_nil IntentTarget.parse IntentTarget.to_dict tgts htg
  have hap0 : List.mapM.loop IntentArgProvenance.parse [] []
      = Except.ok ([] : List IntentArgProvenance) := rfl
  unfold IntentRequest.from_dict IntentRequest.to_dict
  rcases aps with _ | ⟨p0, ps⟩
  · rcases dele with _ | d
    · rcases scr with _ | s
      · simp [jget_append, jgetD_eq, jget, jgetE, asDict, asList_arr,
          asOptStr_jget_optStrEntry, jget_optStrEntry_ne, jget_ite_pair_ne,
          jget_ite_pair_self, pyStr_str, except_bind_ok, except_map_ok, hdt, hctx,
          hmtg, hltg, hap0, h6, h7, h8]
      · have hscr := intent_script_parse_to_dict s h5
        simp [jget_append, jgetD_eq, jget, jgetE, asDict, asList_arr,
          asOptStr_jget_optStrEntry, jget_optStrEntry_ne, jget_ite_pair_ne,
          jget_ite_pair_self, pyStr_str, except_bind_ok, except_map_ok, hdt, hctx,
          hmtg, hltg, hap0, h6, h7, h8, hscr]
    · have hdele := intent_delegation_parse_to_dict d h4
      rcases scr with _ | s
      · simp [jget_append, jgetD_eq, jget, jgetE, asDict, asList_arr,
          asOptStr_jget_optStrEntry, jget_optStrEntry_ne, jget_ite_pair_ne,
          jget_ite_pair_self, pyStr_str, except_bind_ok, except_map_ok, hdt, hctx,
          hmtg, hltg, hap0, h6, h7, h8, hdele]
      · have hscr := intent_script_parse_to_dict s h5
        simp [jget_append, jgetD_eq, jget, jgetE, asDict, asList_arr,
          asOptStr_jget_optStrEntry, jget_optStrEntry_ne, jget_ite_pair_ne,
          jget_ite_pair_self, pyStr_str, except_bind_ok, except_map_ok, hdt, hctx,
          hmtg, hltg, hap0, h6, h7, h8, hdele, hscr]
  · have hlap := mapM_loop_parse_roundtrip_nil IntentArgProvenance.parse
      IntentArgProvenance.to_dict (p0 :: ps) hap
    have hmap := mapM_parse_roundtrip IntentArgProvenance.parse
      IntentArgProvenance.to_dict (p0 :: ps) hap
    simp only [List.map_cons] at hlap hmap
    rcases dele with _ | d
    · rcases scr with _ | s
      · simp [jget_append, jgetD_eq, jget, jgetE, asDict, asList_arr,
          asOptStr_jget_optStrEntry, jget_optStrEntry_ne, jget_ite_pair_ne,
          jget_ite_pair_self, pyStr_str, except_bind_ok, except_map_ok, hdt, hctx,
          hmtg, hltg, hlap, hmap, h6, h7, h8]
      · have hscr := intent_script_parse_to_dict s h5
        simp [jget_append, jgetD_eq, jget, jgetE, asDict, asList_arr,
          asOptStr_jget_optStrEntry, jget_optStrEntry_ne, jget_ite_pair_ne,
          jget_ite_pair_self, pyStr_str, except_bind_ok, except_map_ok, hdt, hctx,
          hmtg, hltg, hlap, hmap, h6, h7, h8, hscr]
    · have hdele := intent_delegation_parse_to_dict d h4
      rcases scr with _ | s
      · simp [jget_append, jgetD_eq, jget, jgetE, asDict, asList_arr,
          asOptStr_jget_optStrEntry, jget_optStrEntry_ne, jget_ite_pair_ne,
          jget_ite_pair_self, pyStr_str, except_bind_ok, except_map_ok, hdt, hctx,
          hmtg, hltg, hlap, hmap, h6, h7, h8, hdele]
      · have hscr := intent_script_parse_to_dict s h5
        simp [jget_append, jgetD_eq, jget, jgetE, asDict, asList_arr,
          asOptStr_jget_optStrEntry, jget_optStrEntry_ne, jget_ite_pair_ne,
          jget_ite_pair_self, pyStr_str, except_bind_ok, except_map_ok, hdt, hctx,
          hmtg, hltg, hlap, hmap, h6, h7, h8, hdele, hscr]

/-- Claim C7 counterexample: an `IntentRequest` with targets,
arg-provenance, delegation and script all populated whose target has
`operation=""` does not round-trip: Python's `if self.operation:` omits
the empty string from the serialized form, and `from_dict` reconstructs
the field as `None` — so `from_dict(to_dict(x))` differs from `x` on a
field present in the original. -/
theorem intent_request_round_trip_counterexample :
    IntentRequest.from_dict (fun s => s)
      (IntentRequest.to_dict (fun s => s)
        { tool_name := "tool.write"
          args := [("path", .str "/tmp/out.txt")]
          context := { identity := "alice", workspace := "/repo/gait", risk_class := "high" }
          targets := [{ kind := "path", value := "/tmp/out.txt", operation := some "" }]
          arg_provenance := [{ arg_path := "path", source := "user" }]
          delegation := some { requester_identity := "alice" }
          script := some { steps := [{ tool_name := "tool.read", args := [] },
            { tool_name := "tool.write", args := [] }] }
          created_at := "2026-02-05T00:00:00Z" })
      = .ok
        { tool_name := "tool.write"
          args := [("path", .str "/tmp/out.txt")]
          context := { identity := "alice", workspace := "/repo/gait", risk_class := "high" }
          targets := [{ kind := "path", value := "/tmp/out.txt", operation := none }]
          arg_provenance := [{ arg_path := "path", source := "user" }]
          delegation := some { requester_identity := "alice" }
          script := some { steps := [{ tool_name := "tool.read", args := [] },
            { tool_name := "tool.write", args := [] }] }
          created_at := "2026-02-05T00:00:00Z" }
    ∧ ({ tool_name := "tool.write"
         args := [("path", .str "/tmp/out.txt")]
         context := { identity := "alice", workspace := "/repo/gait", risk_class := "high" }
         targets := [{ kind := "path", value := "/tmp/out.txt", operation := none }]
         arg_provenance := [{ arg_path := "path", source := "user" }]
         delegation := some { requester_identity := "alice" }
         script := some { steps := [{ tool_name := "tool.read", args := [] },
           { tool_name := "tool.write", args := [] }] }
         created_at := "2026-02-05T00:00:00Z" } : IntentRequest String)
      ≠ { tool_name := "tool.write"
          args := [("path", .str "/tmp/out.txt")]
          context := { identity := "alice", workspace := "/repo/gait", risk_class := "high" }
          targets := [{ kind := "path", value := "/tmp/out.txt", operation := some "" }]
          arg_provenance := [{ arg_path := "path", source := "user" }]
          delegation := some { requester_identity := "alice" }
          script := some { steps := [{ tool_name := "tool.read", args := [] },
            { tool_name := "tool.write", args := [] }] }
          created_at := "2026-02-05T00:00:00Z" } := by
  constructor
  · rfl
  · intro he
    exact absurd (congrArg IntentRequest.targets he) (by decide)

/-- Witness for claim C7's amended theorem: a fully populated request —
targets, arg-provenance, delegation with a chain link, and a two-step
script — round-trips exactly, with both script steps' tool names in
order. -/
theorem intent_request_round_trip_witness :
    IntentRequest.from_dict (fun s => s)
      (IntentRequest.to_dict (fun s => s)
        { tool_name := "tool.write"
          args := [("path", .str "/tmp/out.txt"), ("content", .str "héllo")]
          context := { identity := "alice", workspace := "/repo/gait", risk_class := "high",
                       session_id := some "sess-1", credential_scopes := ["fs:write"] }
          targets := [{ kind := "path", value := "/tmp/out.txt", operation := some "write" }]
          arg_provenance := [{ arg_path := "path", source := "user" }]
          delegation := some { requester_identity := "alice",
                               chain := [{ delegator_identity := "root",
                                           delegate_identity := "alice" }] }
          script := some { steps := [{ tool_name := "tool.read", args := [] },
            { tool_name := "tool.write", args := [] }] }
          created_at := "2026-02-05T00:00:00Z"
          args_digest := some "abc123" })
      = .ok
        { tool_name := "tool.write"
          args := [("path", .str "/tmp/out.txt"), ("content", .str "héllo")]
          context := { identity := "alice", workspace := "/repo/gait", risk_class := "high",
                       session_id := some "sess-1", credential_scopes := ["fs:write"] }
          targets := [{ kind := "path", value := "/tmp/out.txt", operation := some "write" }]
          arg_provenance := [{ arg_path := "path", source := "user" }]
          delegation := some { requester_identity := "alice",
                               chain := [{ delegator_identity := "root",
                                           delegate_identity := "alice" }] }
          script := some { steps := [{ tool_name := "tool.read", args := [] },
            { tool_name := "tool.write", args := [] }] }
          created_at := "2026-02-05T00:00:00Z"
          args_digest := some "abc123" } :=
  intent_request_from_dict_to_dict (fun s => s) (fun s => s)
    { tool_name := "tool.write"
      args := [("path", .str "/tmp/out.txt"), ("content", .str "héllo")]
      context := { identity := "alice", workspace := "/repo/gait", risk_class := "high",
                   session_id := some "sess-1", credential_scopes := ["fs:write"] }
      targets := [{ kind := "path", value := "/tmp/out.txt", operation := some "write" }]
      arg_provenance := [{ arg_path := "path", source := "user" }]
      delegation := some { requester_identity := "alice",
                           chain := [{ delegator_identity := "root",
                                       delegate_identity := "alice" }] }
      script := some { steps := [{ tool_name := "tool.read", args := [] },
        { tool_name := "tool.write", args := [] }] }
      created_at := "2026-02-05T00:00:00Z"
      args_digest := some "abc123" }
    rfl (by decide)

theorem str_data_append (a b : String) : (a ++ b).data = a.data ++ b.data := rfl

theorem str_data_mk (l : List Char) : (String.mk l).data = l := rfl

theorem hexVal_hexDigit : ∀ n : Nat, n < 16 → hexVal (hexDigit n) = n := by decide

theorem scanJString_escChar (c : Char) (cs acc : List Char) :
    scanJString ((escapeChar c).data ++ cs) acc = scanJString cs (c :: acc) := by
  by_cases h1 : c = '"'
  · subst h1
    show scanJString (('\\' :: '"' :: []) ++ cs) acc = _
    rw [List.cons_append, List.cons_append, List.nil_append, scanJString.eq_def]
    simp
  by_cases h2 : c = '\\'
  · subst h2
    show scanJString (('\\' :: '\\' :: []) ++ cs) acc = _
    rw [List.cons_append, List.cons_append, List.nil_append, scanJString.eq_def]
    simp
  by_cases h3 : c = '\n'
  · subst h3
    show scanJString (('\\' :: 'n' :: []) ++ cs) acc = _
    rw [List.cons_append, List.cons_append, List.nil_append, scanJString.eq_def]
    simp
  by_cases h4 : c = '\r'
  · subst h4
    show scanJString (('\\' :: 'r' :: []) ++ cs) acc = _
    rw [List.cons_append, List.cons_append, List.nil_append, scanJString.eq_def]
    simp
  by_cases h5 : c = '\t'
  · subst h5
    show scanJString (('\\' :: 't' :: []) ++ cs) acc = _
    rw [List.cons_append, List.cons_append, List.nil_append, scanJString.eq_def]
    simp
  by_cases h6 : c = '\x08'
  · subst h6
    show scanJString (('\\' :: 'b' :: []) ++ cs) acc = _
    rw [List.cons_append, List.cons_append, List.nil_append, scanJString.eq_def]
    simp
  by_cases h7 : c = '\x0c'
  · subst h7
    show scanJString (('\\' :: 'f' :: []) ++ cs) acc = _
    rw [List.cons_append, List.cons_append, List.nil_append, scanJString.eq_def]
    simp
  by_cases h8 : c.toNat < 32
  · have hdata : (escapeChar c).data
        = '\\' :: 'u' :: '0' :: '0' :: hexDigit (c.toNat / 16) :: hexDigit (c.toNat % 16) :: [] := by
      simp only [escapeChar, h1, h2, h3, h4, h5, h6, h7, h8, if_true, if_false, ite_true,
        ite_false, if_neg, if_pos]
      rfl
    have hch : Char.ofNat (((hexVal '0' * 16 + hexVal '0') * 16
        + hexVal (hexDigit (c.toNat / 16))) * 16 + hexVal (hexDigit (c.toNat % 16))) = c := by
      rw [hexVal_hexDigit _ (by omega : c.toNat / 16 < 16),
        hexVal_hexDigit _ (by omega : c.toNat % 16 < 16)]
      have h0 : hexVal '0' = 0 := rfl
      rw [h0]
      have harith : ((0 * 16 + 0) * 16 + c.toNat / 16) * 16 + c.toNat % 16 = c.toNat := by omega
      rw [harith, Char.ofNat_toNat]
    rw [hdata]
    simp only [List.cons_append, List.nil_append]
    rw [scanJString.eq_def]
    simp [hch]
  · have hdata : (escapeChar c).data = c :: [] := by
      simp only [escapeChar, h1, h2, h3, h4, h5, h6, h7, h8, if_true, if_false, ite_true,
        ite_false, if_neg, if_pos]
      rfl
    rw [hdata]
    simp only [List.cons_append, List.nil_append]
    rw [scanJString.eq_def]
    simp [h1, h2]

theorem scanJString_escList : ∀ (l : List Char) (acc rest : List Char),
    scanJString (l.flatMap (fun c => (escapeChar c).data) ++ ('"' :: rest)) acc
      = some (String.mk (acc.reverse ++ l), rest)
  | [], acc, rest => by
    rw [List.flatMap_nil, List.nil_append, scanJString.eq_def]
    simp
  | c :: l, acc, rest => by
    rw [List.flatMap_cons, List.append_assoc, scanJString_escChar,
      scanJString_escList l (c :: acc) rest]
    simp

theorem scanJString_escData (s : String) (rest : List Char) :
    scanJString (escData escapeChar s ++ ('"' :: rest)) [] = some (s, rest) := by
  rw [escData, scanJString_escList s.data [] rest]
  rfl

theorem chompLit_append : ∀ (lit rest : List Char), chompLit lit (lit ++ rest) = some rest
  | [], rest => rfl
  | c :: cs, rest => by
    rw [List.cons_append, chompLit, if_pos rfl, chompLit_append cs rest]

theorem chompLit_single (c : Char) (rest : List Char) :
    chompLit (c :: []) (c :: rest) = some rest := by
  rw [chompLit, if_pos rfl]
  rfl

theorem parsePackEntry_spec (e : PackEntry) (rest : List Char) :
    parsePackEntry (entryChars e ++ rest) = some (e, rest) := by
  simp [parsePackEntry, entryChars, chompLit, List.append_assoc,
    scanJString_escData, chompLit_single, Option.some_bind]

theorem parsePackEntriesTail_spec : ∀ (es : List PackEntry) (fuel : Nat), es.length ≤ fuel →
    ∀ (acc : List PackEntry) (rest : List Char),
      parsePackEntriesTail fuel acc (contentsTailChars es ++ (']' :: rest))
        = some (acc.reverse ++ es, rest)
  | [], fuel, _, acc, rest => by
    rw [contentsTailChars, List.nil_append, parsePackEntriesTail.eq_def]
    simp
  | e :: es, 0, h, acc, rest => by
    simp only [List.length_cons] at h
    omega
  | e :: es, fuel + 1, h, acc, rest => by
    rw [contentsTailChars]
    simp only [List.cons_append, List.append_assoc]
    rw [parsePackEntriesTail.eq_def]
    simp [parsePackEntry_spec, Option.some_bind]
    rw [parsePackEntriesTail_spec es fuel (by simp only [List.length_cons] at h; omega)
      (e :: acc) rest]
    simp

theorem contentsTailChars_length : ∀ es : List PackEntry,
    es.length ≤ (contentsTailChars es).length
  | [] => Nat.le_refl 0
  | e :: es => by
    rw [contentsTailChars]
    simp only [List.length_cons, List.length_append]
    have := contentsTailChars_length es
    omega

theorem contentsBodyChars_length (es : List PackEntry) :
    es.length ≤ (contentsBodyChars es).length := by
  cases es with
  | nil => simp [contentsBodyChars]
  | cons e es2 =>
    rw [contentsBodyChars]
    simp only [List.length_cons, List.length_append]
    have h1 := contentsTailChars_length es2
    omega

theorem parsePackContents_spec (es : List PackEntry) (fuel : Nat) (h : es.length ≤ fuel)
    (rest : List Char) :
    parsePackContents fuel (contentsBodyChars es ++ rest) = some (es, rest) := by
  cases es with
  | nil =>
    rw [contentsBodyChars, List.cons_append, List.nil_append]
    simp only [parsePackContents]
    rw [chompLit_single]
  | cons e es2 =>
    rw [contentsBodyChars]
    simp only [List.append_assoc, List.cons_append, List.nil_append]
    have hno : chompLit (']' :: [])
        (entryChars e ++ (contentsTailChars es2 ++ (']' :: rest))) = none := rfl
    simp only [parsePackContents, hno]
    rw [parsePackEntry_spec]
    simp only [Option.some_bind]
    rw [parsePackEntriesTail_spec es2 fuel (by simp only [List.length_cons] at h; omega)
      (e :: []) rest]
    simp

theorem sortKeysDeep_entry (e : PackEntry) :
    sortKeysDeep (PackEntry.toJson e) = PackEntry.toJson e := by
  simp +decide [PackEntry.toJson, sortKeysDeep, sortKeysDeepObj, sortByKey,
    List.insertionSort, List.orderedInsert, keyLe]

theorem sortKeysDeepList_map_entries : ∀ es : List PackEntry,
    sortKeysDeepList (es.map PackEntry.toJson) = es.map PackEntry.toJson
  | [] => rfl
  | e :: es => by
    rw [List.map_cons, sortKeysDeepList, sortKeysDeep_entry, sortKeysDeepList_map_entries es]

theorem sortKeysDeep_manifest (m : ManifestForId) :
    sortKeysDeep (ManifestForId.toJson m)
      = Json.obj
          [ ("contents", .arr (m.contents.map PackEntry.toJson))
          , ("created_at", .str m.created_at)
          , ("pack_id", .str "")
          , ("pack_type", .str "run")
          , ("producer_version", .str m.producer_version)
          , ("schema_id", .str "gait.pack.manifest")
          , ("schema_version", .str "1.0.0")
          , ("source_ref", .str m.source_ref) ] := by
  simp +decide [ManifestForId.toJson, sortKeysDeep, sortKeysDeepObj, sortKeysDeepList_map_entries,
    sortByKey, List.insertionSort, List.orderedInsert, keyLe]

theorem escData_path : escData escapeChar "path" = 'p' :: 'a' :: 't' :: 'h' :: [] := by decide

theorem escData_sha256 : escData escapeChar "sha256"
    = 's' :: 'h' :: 'a' :: '2' :: '5' :: '6' :: [] := by decide

theorem escData_type : escData escapeChar "type" = 't' :: 'y' :: 'p' :: 'e' :: [] := by decide

theorem render_entry (e : PackEntry) :
    (render escapeChar (PackEntry.toJson e)).data = entryChars e := by
  simp [PackEntry.toJson, render, renderObj, encodeStringWith, entryChars,
    escData_path, escData_sha256, escData_type, str_data_append, str_data_mk,
    List.append_assoc]

theorem renderList_data_contents : ∀ (e : PackEntry) (es : List PackEntry) (R : List Char),
    (renderList escapeChar (PackEntry.toJson e :: es.map PackEntry.toJson)).data ++ (']' :: R)
      = entryChars e ++ (contentsTailChars es ++ (']' :: R))
  | e, [], R => by
    simp [renderList, render_entry, contentsTailChars]
  | e, e2 :: es, R => by
    simp only [List.map_cons]
    have hr : renderList escapeChar
        (PackEntry.toJson e :: PackEntry.toJson e2 :: es.map PackEntry.toJson)
        = render escapeChar (PackEntry.toJson e) ++ ","
          ++ renderList escapeChar (PackEntry.toJson e2 :: es.map PackEntry.toJson) := rfl
    rw [hr]
    simp only [str_data_append, List.append_assoc]
    rw [render_entry]
    simp only [List.cons_append, List.nil_append]
    rw [renderList_data_contents e2 es R, contentsTailChars]
    simp [List.append_assoc]

theorem escData_k_contents : escData escapeChar "contents" = 'c' :: 'o' :: 'n' :: 't' :: 'e' :: 'n' :: 't' :: 's' :: [] := by decide

theorem escData_k_created_at : escData escapeChar "created_at" = 'c' :: 'r' :: 'e' :: 'a' :: 't' :: 'e' :: 'd' :: '_' :: 'a' :: 't' :: [] := by decide

theorem escData_k_pack_id : escData escapeChar "pack_id" = 'p' :: 'a' :: 'c' :: 'k' :: '_' :: 'i' :: 'd' :: [] := by decide

theorem escData_k_pack_type : escData escapeChar "pack_type" = 'p' :: 'a' :: 'c' :: 'k' :: '_' :: 't' :: 'y' :: 'p' :: 'e' :: [] := by decide

theorem escData_k_producer_version : escData escapeChar "producer_version" = 'p' :: 'r' :: 'o' :: 'd' :: 'u' :: 'c' :: 'e' :: 'r' :: '_' :: 'v' :: 'e' :: 'r' :: 's' :: 'i' :: 'o' :: 'n' :: [] := by decide

theorem escData_k_schema_id : escData escapeChar "schema_id" = 's' :: 'c' :: 'h' :: 'e' :: 'm' :: 'a' :: '_' :: 'i' :: 'd' :: [] := by decide

theorem escData_k_schema_version : escData escapeChar "schema_version" = 's' :: 'c' :: 'h' :: 'e' :: 'm' :: 'a' :: '_' :: 'v' :: 'e' :: 'r' :: 's' :: 'i' :: 'o' :: 'n' :: [] := by decide

theorem escData_k_source_ref : escData escapeChar "source_ref" = 's' :: 'o' :: 'u' :: 'r' :: 'c' :: 'e' :: '_' :: 'r' :: 'e' :: 'f' :: [] := by decide

theorem escData_k_run : escData escapeChar "run" = 'r' :: 'u' :: 'n' :: [] := by decide

theorem escData_k_manifest : escData escapeChar "gait.pack.manifest" = 'g' :: 'a' :: 'i' :: 't' :: '.' :: 'p' :: 'a' :: 'c' :: 'k' :: '.' :: 'm' :: 'a' :: 'n' :: 'i' :: 'f' :: 'e' :: 's' :: 't' :: [] := by decide

theorem escData_k_ver : escData escapeChar "1.0.0" = '1' :: '.' :: '0' :: '.' :: '0' :: [] := by decide

theorem escData_k_empty : escData escapeChar "" = [] := by decide
theorem canonical_manifest_data (m : ManifestForId) :
    (canonical_json (ManifestForId.toJson m)).data
      = ("\x7b\"contents\":[").data
          ++ (contentsBodyChars m.contents
          ++ ((",\"created_at\":\"").data
          ++ (escData escapeChar m.created_at
          ++ ('"' :: ((",\"pack_id\":\"\",\"pack_type\":\"run\",\"producer_version\":\"").data
          ++ (escData escapeChar m.producer_version
          ++ ('"' :: ((",\"schema_id\":\"gait.pack.manifest\",\"schema_version\":\"1.0.0\",\"source_ref\":\"").data
          ++ (escData escapeChar m.source_ref
          ++ ('"' :: ('\x7d' :: []))))))))))) := by
  rw [canonical_json]
  show (render escapeChar (sortKeysDeep (ManifestForId.toJson m))).data = _
  rw [sortKeysDeep_manifest]
  cases hm : m.contents with
  | nil =>
    simp [render, renderObj, renderList, encodeStringWith, contentsBodyChars,
      escData_k_contents, escData_k_created_at, escData_k_pack_id, escData_k_pack_type,
      escData_k_producer_version, escData_k_schema_id, escData_k_schema_version,
      escData_k_source_ref, escData_k_run, escData_k_manifest, escData_k_ver,
      escData_k_empty, str_data_append, str_data_mk, List.append_assoc]
  | cons e es =>
    simp only [List.map_cons, render, renderObj, encodeStringWith, str_data_append, str_data_mk,
      List.append_assoc, List.cons_append, List.nil_append]
    rw [renderList_data_contents]
    rw [contentsBodyChars]
    simp [escData_k_contents, escData_k_created_at, escData_k_pack_id, escData_k_pack_type,
      escData_k_producer_version, escData_k_schema_id, escData_k_schema_version,
      escData_k_source_ref, escData_k_run, escData_k_manifest, escData_k_ver,
      escData_k_empty, List.append_assoc]

theorem parsePackContents_append (es : List PackEntry) (rest : List Char) :
    parsePackContents ((contentsBodyChars es ++ rest).length) (contentsBodyChars es ++ rest)
      = some (es, rest) := by
  apply parsePackContents_spec
  have := contentsBodyChars_length es
  simp only [List.length_append]
  omega

theorem parseManifestForId_roundtrip (m : ManifestForId) :
    parseManifestForId (canonical_json (ManifestForId.toJson m)) = some m := by
  simp only [parseManifestForId, canonical_manifest_data, chompLit_append, Option.some_bind,
    parsePackContents_append, scanJString_escData, chompLit_single, List.isEmpty_nil,
    if_true]

/-- C6: self-digest consistency of `pack_id`.  (i) For every manifest
produced by `build_pack`, the stored `pack_id` equals the external
SHA-256 (as lowercase hex, supplied as the `sha256_hex` parameter) of
the canonical JSON of that same manifest with its `pack_id` field set to
`""` and any `signatures` field removed, and that blanked manifest is
exactly the `ManifestForId` encoding of the pack's data (`created_at`,
`producer_version`, `source_ref = run_id`, and the two `contents`
entries).  (ii) Under the standing model assumption that the digest
function is injective on the strings fed to it, the map from manifest
data to `pack_id` is injective, so in particular changing any
`contents[]` entry (its `path`, `sha256` or `type`) changes the
resulting `pack_id`. -/
theorem pack_id_self_digest_consistency
    (sha256_hex : Bytes → String)
    (hinj : ∀ s1 s2 : String, sha256_hex (.utf8 s1) = sha256_hex (.utf8 s2) → s1 = s2) :
    (∀ run_id producer_version created_at : String,
        jget (build_pack_manifest sha256_hex run_id producer_version created_at) "pack_id"
          = some (.str (sha256_hex (.utf8 (canonical_json (.obj (popKey
              (setKey (build_pack_manifest sha256_hex run_id producer_version created_at)
                "pack_id" (.str "")) "signatures"))))))
        ∧ Json.obj (build_pack_manifest_for_id sha256_hex run_id producer_version created_at)
            = ManifestForId.toJson
                { created_at := created_at
                  producer_version := producer_version
                  source_ref := run_id
                  contents :=
                    [ { path := "run_payload.json"
                        sha256 := sha256_hex (.utf8 (canonical_json
                          (.obj (build_pack_run_payload sha256_hex run_id created_at))))
                        type := "json" }
                    , { path := "source/runpack.zip"
                        sha256 := sha256_hex (build_source_runpack_stub sha256_hex run_id)
                        type := "zip" } ] })
    ∧ (∀ m1 m2 : ManifestForId,
        packIdOf sha256_hex m1 = packIdOf sha256_hex m2 → m1 = m2)
    ∧ (∀ m1 m2 : ManifestForId, m1.contents ≠ m2.contents →
        packIdOf sha256_hex m1 ≠ packIdOf sha256_hex m2) := by
  refine ⟨fun run_id producer_version created_at => ⟨?_, ?_⟩, ?_, ?_⟩
  · simp +decide [build_pack_manifest, build_pack_manifest_blank, build_pack_manifest_for_id,
      setKey, popKey, jget]
  · simp +decide [build_pack_manifest_for_id, build_pack_manifest_blank, build_pack_contents,
      ManifestForId.toJson, PackEntry.toJson, setKey, popKey]
  · intro m1 m2 h
    simp only [packIdOf] at h
    have hc : canonical_json (ManifestForId.toJson m1)
        = canonical_json (ManifestForId.toJson m2) := hinj _ _ h
    have hp := parseManifestForId_roundtrip m1
    rw [hc, parseManifestForId_roundtrip m2] at hp
    exact (Option.some.inj hp).symm
  · intro m1 m2 hne heq
    simp only [packIdOf] at heq
    have hc : canonical_json (ManifestForId.toJson m1)
        = canonical_json (ManifestForId.toJson m2) := hinj _ _ heq
    have hp := parseManifestForId_roundtrip m1
    rw [hc, parseManifestForId_roundtrip m2] at hp
    exact hne (congrArg ManifestForId.contents (Option.some.inj hp).symm)

theorem pack_id_self_digest_consistency_witness :
    (∀ s1 s2 : String, identityDigest (.utf8 s1) = identityDigest (.utf8 s2) → s1 = s2)
    ∧ packIdOf identityDigest
        { created_at := "2026-01-01T00:00:00Z"
          producer_version := "1.0.0"
          source_ref := "run-1"
          contents := [{ path := "run_payload.json", sha256 := "aa", type := "json" }] }
      ≠ packIdOf identityDigest
        { created_at := "2026-01-01T00:00:00Z"
          producer_version := "1.0.0"
          source_ref := "run-1"
          contents := [{ path := "run_payload.json", sha256 := "bb", type := "json" }] } :=
  ⟨fun s1 s2 h => h,
    (pack_id_self_digest_consistency identityDigest (fun s1 s2 h => h)).2.2 _ _ (by decide)⟩
